import Mathlib

/-!
Verification development for the workflow-automation POC server.

Shallow embedding of the core pipeline:
* the shared schema types (`shared/schema.ts`),
* the in-memory workflow store (`MemStorage` in `server/storage.ts`),
* the JSON-response extraction of the AI service and the enum-coercing
  post-generation validation (`AIService` in `server/services/aiService.ts`,
  BlockIntent variant),
* the pipeline orchestrator (`WorkflowService.processWorkflow`) and the
  derived progress view (`WorkflowService.getWorkflowStatus`),
* the `PUT /api/workflow/:id/blocks` route handler (`server/routes.ts`).

External effects (ffmpeg, GCS, the model calls, `JSON.parse`) are modelled as
explicit outcome parameters supplied through a `PipelineEnv`; `new Date()`
timestamps are modelled as natural-number clocks passed by the caller.
-/

namespace WorkflowPOC

/-- Status literal "pending" (`status` default in `createWorkflow`). -/
def statusPending : String := "pending"

/-- Status literal "processing". -/
def statusProcessing : String := "processing"

/-- Status literal "completed". -/
def statusCompleted : String := "completed"

/-- Status literal "failed". -/
def statusFailed : String := "failed"

/-- One entry of `RawWorkflowExtraction.transcript`
(interface `RawWorkflowExtraction` in the AI service). -/
structure TranscriptEntry where
  time : Int
  screen : String
  action : String
  narration : String
deriving DecidableEq

/-- Interface `RawWorkflowExtraction`: the raw-extraction artifact. -/
structure RawWorkflowExtraction where
  transcript : List TranscriptEntry
deriving DecidableEq

/-- The `input` field of an organized step. -/
structure StepInput where
  data : String
  source : String
deriving DecidableEq

/-- The `output` field of an organized step. -/
structure StepOutput where
  data : String
  destination : String
deriving DecidableEq

/-- Interface `OrganizedWorkflowStep`. -/
structure OrganizedWorkflowStep where
  number : Int
  action : String
  applications : List String
  primaryApplication : Option String
  input : StepInput
  output : StepOutput
  considerations : List String
deriving DecidableEq

/-- Interface `OrganizedWorkflow`: the organization-stage artifact. -/
structure OrganizedWorkflow where
  steps : List OrganizedWorkflowStep
  patterns : List String
  conditionalLogic : List String
  triggers : List String
  frequency : String
deriving DecidableEq

/-- A block as it comes out of `JSON.parse` in `generateBlockStructure`:
`intent` is a raw string that may lie outside the `BlockIntent` enum.
`applicationName`: `none` = key absent, `some none` = key present with value
`null`, `some (some s)` = key present with a string. -/
structure ParsedBlock where
  id : String
  intent : String
  title : String
  description : String
  properties : List (String × String)
  applicationName : Option (Option String)
deriving DecidableEq

/-- A source as parsed from the model response: `type` and `updateRules`
are raw strings. -/
structure ParsedSource where
  id : String
  type : String
  location : String
  updateRules : String
deriving DecidableEq

/-- A connection as parsed from the model response: `updateRules` is a raw
string. -/
structure ParsedConnection where
  sourceBlockId : String
  targetBlockId : String
  dataType : String
  updateRules : String
deriving DecidableEq

/-- A fully-shaped parsed `BlockStructure` (all three arrays present).
`generateBlockStructure` maps over all three arrays, so a response missing
one of them throws and is folded into parse failure. -/
structure ParsedBlockStructure where
  blocks : List ParsedBlock
  sources : List ParsedSource
  connections : List ParsedConnection
deriving DecidableEq

/-- The JSON value stored in the `blockStructure` column. The PUT route
stores the request body as-is after checking only that `blocks` and
`connections` are present and truthy, so each array is optional here
(`none` = key absent or null). -/
structure BSValue where
  blocks : Option (List ParsedBlock)
  sources : Option (List ParsedSource)
  connections : Option (List ParsedConnection)
deriving DecidableEq

/-- Coerces a fully-shaped structure to the stored JSON shape (all keys
present), as happens when the generator stage persists its output. -/
def toBSValue (p : ParsedBlockStructure) : BSValue :=
  { blocks := some p.blocks, sources := some p.sources,
    connections := some p.connections }

/-- A row of the `workflows` table (`shared/schema.ts`), as held by
`MemStorage`. Timestamps are modelled as naturals. -/
structure Workflow where
  id : Nat
  userId : Option Int
  title : String
  createdAt : Nat
  updatedAt : Nat
  status : String
  videoPath : Option String
  rawExtraction : Option RawWorkflowExtraction
  organizedWorkflow : Option OrganizedWorkflow
  blockStructure : Option BSValue
deriving DecidableEq

/-- Embeds `InsertWorkflow` (the picked columns accepted by `createWorkflow`). -/
structure InsertWorkflow where
  userId : Option Int
  title : String
  videoPath : Option String
deriving DecidableEq

/-- The workflow half of `MemStorage` (the user map plays no role in the
claims and is not modelled). The `Map` is an association list with
JS-`Map.set` semantics (replace in place, else append). -/
structure MemStorage where
  workflows : List (Nat × Workflow)
  workflowIdCounter : Nat
deriving DecidableEq

/-- Embeds `new MemStorage()`. -/
def emptyStorage : MemStorage :=
  { workflows := [], workflowIdCounter := 1 }

/-- Embeds `Map.get`. -/
def getEntry : List (Nat × Workflow) → Nat → Option Workflow
  | [], _ => none
  | (k, v) :: rest, i => if k = i then some v else getEntry rest i

/-- Embeds `Map.set`: replace the binding in place if the key is present,
otherwise append. -/
def setEntry : List (Nat × Workflow) → Nat → Workflow → List (Nat × Workflow)
  | [], i, w => [(i, w)]
  | (k, v) :: rest, i, w =>
      if k = i then (i, w) :: rest else (k, v) :: setEntry rest i w

/-- Embeds `MemStorage.getWorkflow`. -/
def getWorkflow (s : MemStorage) (id : Nat) : Option Workflow :=
  getEntry s.workflows id

/-- Embeds `MemStorage.createWorkflow`: assigns the next counter id, stamps both
timestamps with `now`, sets status `pending` and all three artifacts null. -/
def createWorkflow (s : MemStorage) (iw : InsertWorkflow) (now : Nat) :
    Workflow × MemStorage :=
  let id := s.workflowIdCounter
  let w : Workflow :=
    { id := id, userId := iw.userId, title := iw.title, createdAt := now,
      updatedAt := now, status := statusPending, videoPath := iw.videoPath,
      rawExtraction := none, organizedWorkflow := none, blockStructure := none }
  (w, { workflows := setEntry s.workflows id w, workflowIdCounter := id + 1 })

/-- Embeds `MemStorage.updateWorkflowStatus`. -/
def updateWorkflowStatus (s : MemStorage) (id : Nat) (status : String)
    (now : Nat) : Option Workflow × MemStorage :=
  match getWorkflow s id with
  | none => (none, s)
  | some w =>
      let w2 := { w with status := status, updatedAt := now }
      (some w2, { s with workflows := setEntry s.workflows id w2 })

/-- Embeds `MemStorage.updateWorkflowRawExtraction`. -/
def updateWorkflowRawExtraction (s : MemStorage) (id : Nat)
    (rawExtraction : RawWorkflowExtraction) (now : Nat) :
    Option Workflow × MemStorage :=
  match getWorkflow s id with
  | none => (none, s)
  | some w =>
      let w2 := { w with rawExtraction := some rawExtraction, updatedAt := now }
      (some w2, { s with workflows := setEntry s.workflows id w2 })

/-- Embeds `MemStorage.updateWorkflowOrganizedData`. -/
def updateWorkflowOrganizedData (s : MemStorage) (id : Nat)
    (organizedWorkflow : OrganizedWorkflow) (now : Nat) :
    Option Workflow × MemStorage :=
  match getWorkflow s id with
  | none => (none, s)
  | some w =>
      let w2 := { w with organizedWorkflow := some organizedWorkflow,
                         updatedAt := now }
      (some w2, { s with workflows := setEntry s.workflows id w2 })

/-- Embeds `MemStorage.updateWorkflowBlockStructure`. -/
def updateWorkflowBlockStructure (s : MemStorage) (id : Nat)
    (blockStructure : BSValue) (now : Nat) : Option Workflow × MemStorage :=
  match getWorkflow s id with
  | none => (none, s)
  | some w =>
      let w2 := { w with blockStructure := some blockStructure,
                         updatedAt := now }
      (some w2, { s with workflows := setEntry s.workflows id w2 })

/-- Embeds `Math.round` as applied in `getWorkflowStatus`: round half up. The
products `v*0.1`, `r*0.3`, ... are exact in IEEE doubles for every component
value the code produces (multiples of 50), so exact rational arithmetic is a
faithful model of the JS computation. -/
def jsRound (q : ℚ) : ℤ := ⌊q + 1/2⌋

/-- The per-stage progress components computed by
`WorkflowService.getWorkflowStatus` from the record status and which
artifacts are present: `(videoProcessing, rawExtraction, organization,
blockGeneration)`. -/
def progressComponents (w : Workflow) : Nat × Nat × Nat × Nat :=
  if w.status = statusCompleted then (100, 100, 100, 100)
  else if w.status = statusFailed then
    if w.blockStructure.isSome then (100, 100, 100, 50)
    else if w.organizedWorkflow.isSome then (100, 100, 100, 0)
    else if w.rawExtraction.isSome then (100, 100, 0, 0)
    else (50, 0, 0, 0)
  else if w.status = statusProcessing then
    if w.rawExtraction.isSome then
      if w.organizedWorkflow.isSome then
        (100, 100, 100, if w.blockStructure.isSome then 100 else 50)
      else (100, 100, 50, 0)
    else (100, 50, 0, 0)
  else (0, 0, 0, 0)

/-- The `progress` object returned by `getWorkflowStatus`. -/
structure WorkflowProgress where
  videoProcessing : Nat
  rawExtraction : Nat
  organization : Nat
  blockGeneration : Nat
  overall : Int
deriving DecidableEq

/-- The value returned by `getWorkflowStatus`. -/
structure WorkflowStatusResult where
  status : String
  progress : WorkflowProgress
  estimatedTimeRemaining : Option Int
deriving DecidableEq

/-- Embeds `WorkflowService.getWorkflowStatus`: `none` models the thrown
`Workflow not found` error. -/
def getWorkflowStatus (s : MemStorage) (id : Nat) : Option WorkflowStatusResult :=
  match getWorkflow s id with
  | none => none
  | some w =>
      match progressComponents w with
      | (v, r, o, b) =>
          let overall : Int :=
            jsRound ((v:ℚ) * (1/10) + (r:ℚ) * (3/10) + (o:ℚ) * (3/10) + (b:ℚ) * (3/10))
          let eta : Option Int :=
            if w.status = statusProcessing ∧ overall < 100
            then some ((100 - overall) * 1) else none
          some { status := w.status,
                 progress := { videoProcessing := v, rawExtraction := r,
                               organization := o, blockGeneration := b,
                               overall := overall },
                 estimatedTimeRemaining := eta }

/-- Embeds `Object.values(BlockIntent)` (`shared/schema.ts`). -/
def blockIntentValues : List String :=
  [r"edit", r"view", r"search", r"generate", r"input", r"extract",
   r"transfer", r"decision", r"communicate", r"unknown"]

/-- Embeds `Object.values(SourceType)`. -/
def sourceTypeValues : List String :=
  [r"file", r"web", r"api", r"manual"]

/-- Embeds `Object.values(UpdateRule)`. -/
def updateRuleValues : List String :=
  [r"onSourceChange", r"manual", r"scheduled", r"onEvent"]

/-- Default intent `BlockIntent.UNKNOWN`. -/
def intentUnknown : String := "unknown"

/-- Default source type `SourceType.File`. -/
def typeFile : String := "file"

/-- Default update rule `UpdateRule.Manual`. -/
def ruleManual : String := "manual"

/-- The per-block repair in `generateBlockStructure`: invalid `intent` is
defaulted to `unknown`; a `null` `applicationName` key is deleted. -/
def validateBlock (b : ParsedBlock) : ParsedBlock :=
  let b2 := if blockIntentValues.contains b.intent then b
            else { b with intent := intentUnknown }
  match b2.applicationName with
  | some none => { b2 with applicationName := none }
  | _ => b2

/-- The per-source repair: invalid `type` defaults to `file`, invalid
`updateRules` defaults to `manual`. -/
def validateSource (src : ParsedSource) : ParsedSource :=
  let s2 := if sourceTypeValues.contains src.type then src
            else { src with type := typeFile }
  if updateRuleValues.contains s2.updateRules then s2
  else { s2 with updateRules := ruleManual }

/-- The per-connection repair: invalid `updateRules` defaults to `manual`. -/
def validateConnection (c : ParsedConnection) : ParsedConnection :=
  if updateRuleValues.contains c.updateRules then c
  else { c with updateRules := ruleManual }

/-- The three `.map` repair passes performed by `generateBlockStructure`
after parsing the model response. -/
def validateBlockStructure (s : ParsedBlockStructure) : ParsedBlockStructure :=
  { blocks := s.blocks.map validateBlock,
    sources := s.sources.map validateSource,
    connections := s.connections.map validateConnection }

/-! ### JSON block extraction (`AIService._parseJsonResponse`)

The regex `/```json\n([\s\S]*?)\n```/` (then `/```\n([\s\S]*?)\n```/`, then
the raw text) is modelled by substring search: the first occurrence of the
opener followed by the first occurrence of `"\n```"` at or after the capture
start, which is exactly the first match of the lazy pattern. -/

/-- Whether `pat` occurs at the head of `hay`. -/
def leadsWith : List Char → List Char → Bool
  | [], _ => true
  | _ :: _, [] => false
  | p :: ps, h :: hs => p = h && leadsWith ps hs

/-- Index of the first occurrence of `pat` in `hay`. -/
def findSub : List Char → List Char → Option Nat
  | hay, pat =>
      if leadsWith pat hay then some 0
      else match hay with
           | [] => none
           | _ :: rest => (findSub rest pat).map (· + 1)

/-- The closing delimiter `"\n```"` of both fenced-block alternatives. -/
def closerChars : List Char := "\n```".toList

/-- First fenced capture for a given opener: the characters strictly between
the first occurrence of `opener` and the first `"\n```"` at or after the
capture start. -/
def extractFenced (text opener : List Char) : Option (List Char) :=
  match findSub text opener with
  | none => none
  | some i =>
      let afterOpen := text.drop (i + opener.length)
      match findSub afterOpen closerChars with
      | none => none
      | some k => some (afterOpen.take k)

/-- Opener of the first regex alternative: `"```json\n"`. -/
def openerJson : List Char := "```json\n".toList

/-- Opener of the second regex alternative: `"```\n"`. -/
def openerPlain : List Char := "```\n".toList

/-- The text handed to `JSON.parse` by `_parseJsonResponse`: first fenced
`json` block, else first plain fenced block, else the whole response;
trimmed either way (`jsonMatch[1].trim()`). -/
def extractJsonBlock (responseText : String) : String :=
  (match extractFenced responseText.toList openerJson with
   | some captured => String.mk captured
   | none =>
       match extractFenced responseText.toList openerPlain with
       | some captured => String.mk captured
       | none => responseText).trim

/-- The message of the error thrown by `_parseJsonResponse` on parse
failure. -/
def parseFailMsg (methodName : String) : String :=
  (r"Failed to parse JSON response in " ++ methodName) ++ r"."

/-- Embeds `AIService._parseJsonResponse`: `jsonParse` stands for the opaque
`JSON.parse` composed with the cast to the target interface (`none` = a
`SyntaxError`, or a shape that makes the field accesses of the caller throw).
On failure the helper throws (`Except.error`), never returns a fallback. -/
def parseJsonResponse {J : Type} (jsonParse : String → Option J)
    (responseText : String) (methodName : String) : Except String J :=
  match jsonParse (extractJsonBlock responseText) with
  | some v => Except.ok v
  | none => Except.error (parseFailMsg methodName)

/-- The `"\n"` separator used to join transcription results. -/
def newlineStr : String := "\n"

/-- Outcome environment for `AIService.transcribeAudio`: the GCS bucket
configuration, whether the staged upload succeeded, and the
`longRunningRecognize` outcome (the list of per-result transcripts). -/
structure TranscribeEnv where
  gcsBucketName : String
  uploadOk : Bool
  recognizeResult : Except String (List String)

/-- Embeds `AIService.transcribeAudio`: returns the joined transcript, and the
empty string on every failure path (no bucket, upload failure, recognize
failure, empty results) — it never throws. -/
def transcribeAudio (env : TranscribeEnv) : String :=
  if env.gcsBucketName = "" then ""
  else if env.uploadOk = false then ""
  else
    match env.recognizeResult with
    | Except.error _ => ""
    | Except.ok results =>
        if results.length = 0 then ""
        else String.intercalate newlineStr results

/-- Error prefix thrown by the catch block of `extractRawWorkflow`. -/
def stageMsgRaw : String := "AI service failed during transcript generation: "

/-- Error prefix thrown by the catch block of `organizeWorkflow`. -/
def stageMsgOrg : String := "AI service failed during workflow organization: "

/-- Error prefix thrown by the catch block of `generateBlockStructure`. -/
def stageMsgBlock : String := "AI service failed during block structure generation: "

/-- Embeds `methodName` passed to `_parseJsonResponse` by `extractRawWorkflow`. -/
def methodRaw : String := "extractRawWorkflow"

/-- Embeds `methodName` passed by `organizeWorkflow`. -/
def methodOrg : String := "organizeWorkflow"

/-- Embeds `methodName` passed by `generateBlockStructure`. -/
def methodBlock : String := "generateBlockStructure"

/-- The post-API-call tail of `AIService.extractRawWorkflow`: extract text,
parse, and rethrow any API or parse error wrapped in the stage message.
`api` is the outcome of the opaque model call (the response text on success). -/
def extractRawWorkflowStage (jsonParse : String → Option RawWorkflowExtraction)
    (api : Except String String) : Except String RawWorkflowExtraction :=
  match api with
  | Except.error e => Except.error (stageMsgRaw ++ e)
  | Except.ok text =>
      match parseJsonResponse jsonParse text methodRaw with
      | Except.ok v => Except.ok v
      | Except.error e => Except.error (stageMsgRaw ++ e)

/-- The post-API-call tail of `AIService.organizeWorkflow`. -/
def organizeWorkflowStage (jsonParse : String → Option OrganizedWorkflow)
    (api : Except String String) : Except String OrganizedWorkflow :=
  match api with
  | Except.error e => Except.error (stageMsgOrg ++ e)
  | Except.ok text =>
      match parseJsonResponse jsonParse text methodOrg with
      | Except.ok v => Except.ok v
      | Except.error e => Except.error (stageMsgOrg ++ e)

/-- The post-API-call tail of `AIService.generateBlockStructure`: on a
successful parse the three enum-repair `.map` passes are applied before
returning; on failure the error is rethrown wrapped. -/
def generateBlockStructureStage (jsonParse : String → Option ParsedBlockStructure)
    (api : Except String String) : Except String ParsedBlockStructure :=
  match api with
  | Except.error e => Except.error (stageMsgBlock ++ e)
  | Except.ok text =>
      match parseJsonResponse jsonParse text methodBlock with
      | Except.ok parsed => Except.ok (validateBlockStructure parsed)
      | Except.error e => Except.error (stageMsgBlock ++ e)

/-- Outcomes of all external effects of one `processWorkflow` run. The
parse functions stand for `JSON.parse` plus the implicit cast to the
target interface. -/
structure PipelineEnv where
  gcsClientOk : Bool
  downloadResult : Except String String
  validationOk : Bool
  preprocessResult : Except String String
  frameResult : Except String (List String)
  audioExtract : Except String String
  transcribeEnv : TranscribeEnv
  rawApi : Except String String
  orgApi : Except String String
  blockApi : Except String String
  parseRaw : String → Option RawWorkflowExtraction
  parseOrg : String → Option OrganizedWorkflow
  parseBlock : String → Option ParsedBlockStructure

/-- The `audioTranscript` value after the audio branch joins: the
`.catch` degrades any audio-extraction error to `""`, and `transcribeAudio`
itself returns `""` on its own failure paths. -/
def audioTranscriptOf (env : PipelineEnv) : String :=
  match env.audioExtract with
  | Except.error _ => ""
  | Except.ok _audioPath => transcribeAudio env.transcribeEnv

/-- The `gs://` scheme test in `processWorkflow`. -/
def gsScheme : String := "gs://"

/-- Error thrown when the GCS client is not initialized. -/
def gcsClientErr : String := "GCS Storage client not initialized. Cannot process GCS path."

/-- Error thrown when no local video path could be determined. -/
def noLocalPathErr : String := "Could not determine local video path for processing."

/-- The video-path determination block of `processWorkflow`: a `gs://` path
requires the GCS client and a successful download to a temp path; any other
path is used as-is. -/
def resolveLocalVideo (env : PipelineEnv) (videoPath : String) :
    Except String String :=
  if leadsWith gsScheme.toList videoPath.toList then
    if env.gcsClientOk = false then Except.error gcsClientErr
    else env.downloadResult
  else Except.ok videoPath

/-- Result of one `processWorkflow` run: the returned boolean, the final
store, every intermediate store state (head = store before the run; a
status poll can observe any of these), and the narration transcript passed
to the synthesis stage (`none` if that point was never reached). -/
structure RunResult where
  ok : Bool
  store : MemStorage
  states : List MemStorage
  audioUsed : Option String

/-- Embeds `WorkflowService.processWorkflow`. The two extraction branches run
concurrently in the source and are joined by `Promise.all` before the
synthesis stage; the join is modelled sequentially. A failed audio branch
is caught inside the pipeline and degrades `audioTranscript` to `""`; a
failed frame branch rejects the join and lands in the outer catch, which
marks the workflow failed. The artifact of each stage is written immediately on
success; the outer catch marks the workflow failed and never removes
already-written artifacts. Successive store mutations use clocks `t`,
`t+1`, ... for `new Date()`. -/
def processWorkflow (env : PipelineEnv) (s0 : MemStorage) (workflowId : Nat)
    (t : Nat) : RunResult :=
  match getWorkflow s0 workflowId with
  | none => { ok := false, store := s0, states := [s0], audioUsed := none }
  | some w =>
    if w.videoPath.getD "" = "" then
      { ok := false, store := s0, states := [s0], audioUsed := none }
    else
      let s1 := (updateWorkflowStatus s0 workflowId statusProcessing t).2
      match resolveLocalVideo env (w.videoPath.getD "") with
      | Except.error _ =>
          let s2 := (updateWorkflowStatus s1 workflowId statusFailed (t+1)).2
          { ok := false, store := s2, states := [s0, s1, s2], audioUsed := none }
      | Except.ok localVideoPath =>
      if localVideoPath = "" then
          let s2 := (updateWorkflowStatus s1 workflowId statusFailed (t+1)).2
          { ok := false, store := s2, states := [s0, s1, s2], audioUsed := none }
      else if env.validationOk = false then
          let s2 := (updateWorkflowStatus s1 workflowId statusFailed (t+1)).2
          { ok := false, store := s2, states := [s0, s1, s2], audioUsed := none }
      else
      match env.preprocessResult with
      | Except.error _ =>
          let s2 := (updateWorkflowStatus s1 workflowId statusFailed (t+1)).2
          { ok := false, store := s2, states := [s0, s1, s2], audioUsed := none }
      | Except.ok _processedVideoPath =>
      match env.frameResult with
      | Except.error _ =>
          let s2 := (updateWorkflowStatus s1 workflowId statusFailed (t+1)).2
          { ok := false, store := s2, states := [s0, s1, s2], audioUsed := none }
      | Except.ok _framePaths =>
      let audioTranscript := audioTranscriptOf env
      match extractRawWorkflowStage env.parseRaw env.rawApi with
      | Except.error _ =>
          let s2 := (updateWorkflowStatus s1 workflowId statusFailed (t+1)).2
          { ok := false, store := s2, states := [s0, s1, s2],
            audioUsed := some audioTranscript }
      | Except.ok rawExtraction =>
      let s2 := (updateWorkflowRawExtraction s1 workflowId rawExtraction (t+1)).2
      match organizeWorkflowStage env.parseOrg env.orgApi with
      | Except.error _ =>
          let s3 := (updateWorkflowStatus s2 workflowId statusFailed (t+2)).2
          { ok := false, store := s3, states := [s0, s1, s2, s3],
            audioUsed := some audioTranscript }
      | Except.ok organizedWorkflow =>
      let s3 := (updateWorkflowOrganizedData s2 workflowId organizedWorkflow (t+2)).2
      match generateBlockStructureStage env.parseBlock env.blockApi with
      | Except.error _ =>
          let s4 := (updateWorkflowStatus s3 workflowId statusFailed (t+3)).2
          { ok := false, store := s4, states := [s0, s1, s2, s3, s4],
            audioUsed := some audioTranscript }
      | Except.ok blockStructure =>
      let s4 := (updateWorkflowBlockStructure s3 workflowId
                   (toBSValue blockStructure) (t+3)).2
      let s5 := (updateWorkflowStatus s4 workflowId statusCompleted (t+4)).2
      { ok := true, store := s5, states := [s0, s1, s2, s3, s4, s5],
        audioUsed := some audioTranscript }

/-- Responses of `PUT /api/workflow/:id/blocks`. -/
inductive PutBlocksResponse where
  | okJson (updated : Option Workflow)
  | notFound
  | badRequest
deriving DecidableEq

/-- The `PUT /api/workflow/:id/blocks` handler: 404 if the id is unknown,
400 if the body or its `blocks`/`connections` keys are missing (falsy),
otherwise the body is stored as the block structure unchanged. -/
def putWorkflowBlocks (s : MemStorage) (id : Nat) (body : Option BSValue)
    (t : Nat) : PutBlocksResponse × MemStorage :=
  match getWorkflow s id with
  | none => (PutBlocksResponse.notFound, s)
  | some _ =>
      match body with
      | none => (PutBlocksResponse.badRequest, s)
      | some b =>
          if b.blocks = none ∨ b.connections = none then
            (PutBlocksResponse.badRequest, s)
          else
            let res := updateWorkflowBlockStructure s id b t
            (PutBlocksResponse.okJson res.1, res.2)

/-- The store-mutating public operations: workflow creation, one
orchestrator run, and the block-structure PUT. -/
inductive StoreOp where
  | create (iw : InsertWorkflow) (now : Nat)
  | runPipeline (env : PipelineEnv) (id : Nat) (t : Nat)
  | putBlocks (id : Nat) (body : Option BSValue) (t : Nat)

/-- Effect of one operation on the store. -/
def applyOp (s : MemStorage) : StoreOp → MemStorage
  | StoreOp.create iw now => (createWorkflow s iw now).2
  | StoreOp.runPipeline env id t => (processWorkflow env s id t).store
  | StoreOp.putBlocks id body t => (putWorkflowBlocks s id body t).2

/-- Stores reachable from the empty store by operations satisfying
`allow`. -/
inductive ReachableW (allow : StoreOp → Prop) : MemStorage → Prop where
  | init : ReachableW allow emptyStorage
  | step (s : MemStorage) (op : StoreOp) (hop : allow op)
      (hs : ReachableW allow s) : ReachableW allow (applyOp s op)

/-- No restriction: any public operation. -/
def anyOp (_ : StoreOp) : Prop := True

/-- Operations excluding the block-structure PUT. -/
def nonPutOp : StoreOp → Prop
  | StoreOp.putBlocks _ _ _ => False
  | _ => True

/-- Shared demo fixture: title of the demo workflow. -/
def demoTitle : String := "Demo workflow"

/-- Shared demo fixture: a non-GCS local video path. -/
def demoVideoPath : String := "/uploads/demo.mov"

/-- Shared demo fixture: insert payload. -/
def demoInsert : InsertWorkflow :=
  { userId := some 1, title := demoTitle, videoPath := some demoVideoPath }

/-- Shared demo fixture: store holding exactly workflow 1, freshly created. -/
def demoStore : MemStorage := (createWorkflow emptyStorage demoInsert 0).2

/-- Shared demo fixture: the freshly created workflow record. -/
def demoWorkflow : Workflow := (createWorkflow emptyStorage demoInsert 0).1

/-- Shared demo fixture: an empty raw extraction. -/
def demoRaw : RawWorkflowExtraction := { transcript := [] }

/-- Shared demo fixture: an empty organized workflow. -/
def demoOrg : OrganizedWorkflow :=
  { steps := [], patterns := [], conditionalLogic := [], triggers := [],
    frequency := r"daily" }

/-- Shared demo fixture: an empty but fully-keyed block structure value. -/
def demoBS : BSValue :=
  { blocks := some [], sources := some [], connections := some [] }

/-- The `overall` value `getWorkflowStatus` computes for a record. -/
def overallOf (w : Workflow) : Int :=
  jsRound (((progressComponents w).1 : ℚ) * (1/10)
    + ((progressComponents w).2.1 : ℚ) * (3/10)
    + ((progressComponents w).2.2.1 : ℚ) * (3/10)
    + ((progressComponents w).2.2.2 : ℚ) * (3/10))

/-- Fixture: a model response with no parsable JSON block. -/
def textNoJson : String := "I could not produce structured output."

/-- Fixture: a frame path produced by extraction. -/
def frameA : String := "/uploads/temp_frames_1/demo_frame_001.jpg"

/-- Fixture: an audio-branch error message. -/
def audioErrDemo : String := "Failed to extract audio: boom"

/-- Fixture: an empty parsed block structure. -/
def demoPBS : ParsedBlockStructure :=
  { blocks := [], sources := [], connections := [] }

/-- Fixture env: every stage returns the unparsable response. -/
def envC4 : PipelineEnv :=
  { gcsClientOk := false, downloadResult := Except.error gcsClientErr,
    validationOk := true, preprocessResult := Except.ok demoVideoPath,
    frameResult := Except.ok [frameA],
    audioExtract := Except.error audioErrDemo,
    transcribeEnv := { gcsBucketName := "", uploadOk := false,
                       recognizeResult := Except.error audioErrDemo },
    rawApi := Except.ok textNoJson, orgApi := Except.ok textNoJson,
    blockApi := Except.ok textNoJson,
    parseRaw := fun _ => none, parseOrg := fun _ => none,
    parseBlock := fun _ => none }

/-- Fixture env: audio branch fails, all generation stages succeed. -/
def envC5 : PipelineEnv :=
  { gcsClientOk := false, downloadResult := Except.error gcsClientErr,
    validationOk := true, preprocessResult := Except.ok demoVideoPath,
    frameResult := Except.ok [frameA],
    audioExtract := Except.error audioErrDemo,
    transcribeEnv := { gcsBucketName := "", uploadOk := false,
                       recognizeResult := Except.error audioErrDemo },
    rawApi := Except.ok textNoJson, orgApi := Except.ok textNoJson,
    blockApi := Except.ok textNoJson,
    parseRaw := fun _ => some demoRaw, parseOrg := fun _ => some demoOrg,
    parseBlock := fun _ => some demoPBS }

/-- The overall progress a status poll observes on store `s` (0 when the
workflow does not exist and the poll throws). -/
def statusOverall (s : MemStorage) (id : Nat) : Int :=
  match getWorkflowStatus s id with
  | none => 0
  | some res => res.progress.overall

/-- The overall values observable by successive polls during one run: one
entry per store state the run exposes (head = state before the run). -/
def runOveralls (env : PipelineEnv) (s0 : MemStorage) (id t : Nat) : List Int :=
  (processWorkflow env s0 id t).states.map (fun s => statusOverall s id)

/-- Fixture env: video validation fails (the earliest stage failure). -/
def envC7 : PipelineEnv := { envC4 with validationOk := false }

/-- All records of a store satisfy `P`. -/
def storeAll (P : Workflow → Prop) (s : MemStorage) : Prop :=
  ∀ id w, getWorkflow s id = some w → P w

/-- Every enum-typed field of a stored block-structure value lies in its
declared closed set. -/
def enumClosedBS (v : BSValue) : Bool :=
  ((v.blocks.getD []).all (fun b => blockIntentValues.contains b.intent))
  && ((v.sources.getD []).all (fun src =>
        sourceTypeValues.contains src.type
        && updateRuleValues.contains src.updateRules))
  && ((v.connections.getD []).all (fun c =>
        updateRuleValues.contains c.updateRules))

/-- The artifact-ordering chain of §3 / P1. -/
def artifactChainFull (w : Workflow) : Prop :=
  (w.blockStructure ≠ none → w.organizedWorkflow ≠ none)
  ∧ (w.organizedWorkflow ≠ none → w.rawExtraction ≠ none)

/-- The second half of the chain on its own. -/
def artifactChainOrgRaw (w : Workflow) : Prop :=
  w.organizedWorkflow ≠ none → w.rawExtraction ≠ none

/-- Enum closure of whatever block structure a record holds. -/
def enumClosedRecord (w : Workflow) : Prop :=
  ∀ bs, w.blockStructure = some bs → enumClosedBS bs = true

/-- Fixture: the store after creating workflow 1 and PUT-replacing its
block structure while no earlier artifact exists. -/
def c1Store : MemStorage :=
  applyOp (applyOp emptyStorage (StoreOp.create demoInsert 0))
    (StoreOp.putBlocks 1 (some demoBS) 1)

/-- Fixture: a PUT body carrying out-of-domain enum values
(block intent `"banana"`, source type and update rules `"weird"`). -/
def badEnumBS : BSValue :=
  { blocks := some [{ id := r"b1", intent := r"banana", title := r"t",
                      description := r"d", properties := [],
                      applicationName := none }],
    sources := some [{ id := r"s1", type := r"weird", location := r"loc",
                       updateRules := r"weird" }],
    connections := some [{ sourceBlockId := r"b1", targetBlockId := r"b1",
                           dataType := r"data", updateRules := r"weird" }] }

/-- Fixture: the store after creating workflow 1 and PUT-replacing its
block structure with the out-of-domain payload. -/
def c2Store : MemStorage :=
  applyOp (applyOp emptyStorage (StoreOp.create demoInsert 0))
    (StoreOp.putBlocks 1 (some badEnumBS) 1)

/-- Fixture: the store after creating workflow 1 and running the pipeline
with every stage succeeding. -/
def c2RunStore : MemStorage :=
  applyOp (applyOp emptyStorage (StoreOp.create demoInsert 0))
    (StoreOp.runPipeline envC5 1 0)

/-! ## Theorems -/

theorem getEntry_setEntry (l : List (Nat × Workflow)) (i j : Nat) (w : Workflow) :
    getEntry (setEntry l i w) j = if j = i then some w else getEntry l j := by
  induction l with
  | nil =>
      rcases eq_or_ne j i with h | h
      · subst h; simp [getEntry, setEntry]
      · simp [getEntry, setEntry, h, h.symm]
  | cons head rest ih =>
      obtain ⟨k, v⟩ := head
      rcases eq_or_ne k i with hk | hk
      · subst hk
        rcases eq_or_ne j k with hj | hj
        · subst hj; simp [getEntry, setEntry]
        · simp [getEntry, setEntry, hj, hj.symm]
      · rcases eq_or_ne j k with hj | hj
        · subst hj
          simp [getEntry, setEntry, hk]
        · simp [getEntry, setEntry, hk, hj, hj.symm, ih]

theorem getWorkflow_updateWorkflowStatus (s : MemStorage) (id j : Nat)
    (st : String) (t : Nat) :
    getWorkflow (updateWorkflowStatus s id st t).2 j =
      match getWorkflow s id with
      | none => getWorkflow s j
      | some w => if j = id then some { w with status := st, updatedAt := t }
                  else getWorkflow s j := by
  unfold updateWorkflowStatus
  cases h : getWorkflow s id with
  | none => simp
  | some w => simp [getWorkflow, getEntry_setEntry]

theorem jsRound_weighted (v r o b : ℕ) :
    jsRound ((v:ℚ) * (1/10) + (r:ℚ) * (3/10) + (o:ℚ) * (3/10) + (b:ℚ) * (3/10))
      = ((v + 3*r + 3*o + 3*b + 5) / 10 : ℕ) := by
  unfold jsRound
  have h : (v:ℚ) * (1/10) + (r:ℚ) * (3/10) + (o:ℚ) * (3/10) + (b:ℚ) * (3/10) + 1/2
      = ((v + 3*r + 3*o + 3*b + 5 : ℕ) : ℚ) / ((10:ℕ):ℚ) := by push_cast; ring
  rw [h, Rat.floor_natCast_div_natCast]
  exact (Int.natCast_div _ _).symm

theorem progressComponents_mem (w : Workflow) :
    (progressComponents w).1 ∈ ([0, 50, 100] : List Nat)
      ∧ (progressComponents w).2.1 ∈ ([0, 50, 100] : List Nat)
      ∧ (progressComponents w).2.2.1 ∈ ([0, 50, 100] : List Nat)
      ∧ (progressComponents w).2.2.2 ∈ ([0, 50, 100] : List Nat) := by
  unfold progressComponents
  repeat' split
  all_goals decide

theorem validateBlock_intent (b : ParsedBlock) :
    (validateBlock b).intent =
      if blockIntentValues.contains b.intent then b.intent else intentUnknown := by
  unfold validateBlock
  by_cases h : blockIntentValues.contains b.intent <;>
    simp only [h, if_true, if_false, Bool.false_eq_true, ite_true, ite_false] <;>
    split <;> rfl

theorem validateSource_type (src : ParsedSource) :
    (validateSource src).type =
      if sourceTypeValues.contains src.type then src.type else typeFile := by
  unfold validateSource
  by_cases h : src.type ∈ sourceTypeValues <;>
    by_cases h2 : src.updateRules ∈ updateRuleValues <;>
    simp [h, h2]

theorem validateSource_updateRules (src : ParsedSource) :
    (validateSource src).updateRules =
      if updateRuleValues.contains src.updateRules then src.updateRules
      else ruleManual := by
  unfold validateSource
  by_cases h : src.type ∈ sourceTypeValues <;>
    by_cases h2 : src.updateRules ∈ updateRuleValues <;>
    simp [h, h2]

theorem validateConnection_updateRules (c : ParsedConnection) :
    (validateConnection c).updateRules =
      if updateRuleValues.contains c.updateRules then c.updateRules
      else ruleManual := by
  unfold validateConnection
  by_cases h : c.updateRules ∈ updateRuleValues <;> simp [h]

/-- C3: for every model output accepted by `generateBlockStructure`
(i.e. whose extracted JSON block parses), the returned structure is the
enum-repaired parse: every block intent outside the closed intent set is
replaced by `unknown`, every source type outside its set by `file`, every
source or connection `updateRules` outside its set by `manual`, and every
in-domain value passes through unchanged. -/
theorem generateBlockStructure_enum_repair
    (jsonParse : String → Option ParsedBlockStructure) (text : String)
    (parsed : ParsedBlockStructure)
    (hparse : jsonParse (extractJsonBlock text) = some parsed) :
    generateBlockStructureStage jsonParse (Except.ok text)
        = Except.ok (validateBlockStructure parsed)
      ∧ (validateBlockStructure parsed).blocks.map ParsedBlock.intent
          = parsed.blocks.map (fun b =>
              if blockIntentValues.contains b.intent then b.intent
              else intentUnknown)
      ∧ (validateBlockStructure parsed).sources.map ParsedSource.type
          = parsed.sources.map (fun src =>
              if sourceTypeValues.contains src.type then src.type else typeFile)
      ∧ (validateBlockStructure parsed).sources.map ParsedSource.updateRules
          = parsed.sources.map (fun src =>
              if updateRuleValues.contains src.updateRules then src.updateRules
              else ruleManual)
      ∧ (validateBlockStructure parsed).connections.map ParsedConnection.updateRules
          = parsed.connections.map (fun c =>
              if updateRuleValues.contains c.updateRules then c.updateRules
              else ruleManual) := by
  refine ⟨?_, ?_, ?_, ?_, ?_⟩
  · simp only [generateBlockStructureStage, parseJsonResponse, hparse]
  · unfold validateBlockStructure
    simp only [List.map_map]
    exact List.map_congr_left (fun b _ => validateBlock_intent b)
  · unfold validateBlockStructure
    simp only [List.map_map]
    exact List.map_congr_left (fun src _ => validateSource_type src)
  · unfold validateBlockStructure
    simp only [List.map_map]
    exact List.map_congr_left (fun src _ => validateSource_updateRules src)
  · unfold validateBlockStructure
    simp only [List.map_map]
    exact List.map_congr_left (fun c _ => validateConnection_updateRules c)

/-- Witness for C3 at a concrete out-of-domain parse: intent `"banana"`
is repaired to `unknown`, source type `"weird"` to `file`, connection
`updateRules` `"weird"` to `manual`. -/
theorem generateBlockStructure_enum_repair_witness :
    generateBlockStructureStage
        (fun _ => some
          { blocks := [{ id := r"b1", intent := r"banana", title := r"t",
                         description := r"d", properties := [],
                         applicationName := none }],
            sources := [{ id := r"s1", type := r"weird", location := r"loc",
                          updateRules := r"weird" }],
            connections := [{ sourceBlockId := r"b1", targetBlockId := r"b1",
                              dataType := r"data", updateRules := r"weird" }] })
        (Except.ok "")
      = Except.ok
          { blocks := [{ id := r"b1", intent := r"unknown", title := r"t",
                         description := r"d", properties := [],
                         applicationName := none }],
            sources := [{ id := r"s1", type := r"file", location := r"loc",
                          updateRules := r"manual" }],
            connections := [{ sourceBlockId := r"b1", targetBlockId := r"b1",
                              dataType := r"data", updateRules := r"manual" }] } := by
  have h := generateBlockStructure_enum_repair
      (fun _ => some
        { blocks := [{ id := r"b1", intent := r"banana", title := r"t",
                       description := r"d", properties := [],
                       applicationName := none }],
          sources := [{ id := r"s1", type := r"weird", location := r"loc",
                        updateRules := r"weird" }],
          connections := [{ sourceBlockId := r"b1", targetBlockId := r"b1",
                            dataType := r"data", updateRules := r"weird" }] })
      "" _ rfl
  rw [h.1]
  rfl

theorem getWorkflow_after_status (s : MemStorage) (id : Nat) (st : String)
    (t : Nat) (w : Workflow) (hw : getWorkflow s id = some w) :
    getWorkflow (updateWorkflowStatus s id st t).2 id
      = some { w with status := st, updatedAt := t } := by
  unfold updateWorkflowStatus
  rw [hw]
  simp [getWorkflow, getEntry_setEntry]

theorem getWorkflow_after_status_other (s : MemStorage) (id : Nat) (st : String)
    (t : Nat) (j : Nat) (hj : j ≠ id) :
    getWorkflow (updateWorkflowStatus s id st t).2 j = getWorkflow s j := by
  unfold updateWorkflowStatus
  cases hw : getWorkflow s id with
  | none => rfl
  | some w => simp [getWorkflow, getEntry_setEntry, hj]

theorem getWorkflow_after_raw (s : MemStorage) (id : Nat)
    (raw : RawWorkflowExtraction) (t : Nat) (w : Workflow)
    (hw : getWorkflow s id = some w) :
    getWorkflow (updateWorkflowRawExtraction s id raw t).2 id
      = some { w with rawExtraction := some raw, updatedAt := t } := by
  unfold updateWorkflowRawExtraction
  rw [hw]
  simp [getWorkflow, getEntry_setEntry]

theorem getWorkflow_after_raw_other (s : MemStorage) (id : Nat)
    (raw : RawWorkflowExtraction) (t : Nat) (j : Nat) (hj : j ≠ id) :
    getWorkflow (updateWorkflowRawExtraction s id raw t).2 j = getWorkflow s j := by
  unfold updateWorkflowRawExtraction
  cases hw : getWorkflow s id with
  | none => rfl
  | some w => simp [getWorkflow, getEntry_setEntry, hj]

theorem getWorkflow_after_org (s : MemStorage) (id : Nat)
    (org : OrganizedWorkflow) (t : Nat) (w : Workflow)
    (hw : getWorkflow s id = some w) :
    getWorkflow (updateWorkflowOrganizedData s id org t).2 id
      = some { w with organizedWorkflow := some org, updatedAt := t } := by
  unfold updateWorkflowOrganizedData
  rw [hw]
  simp [getWorkflow, getEntry_setEntry]

theorem getWorkflow_after_org_other (s : MemStorage) (id : Nat)
    (org : OrganizedWorkflow) (t : Nat) (j : Nat) (hj : j ≠ id) :
    getWorkflow (updateWorkflowOrganizedData s id org t).2 j = getWorkflow s j := by
  unfold updateWorkflowOrganizedData
  cases hw : getWorkflow s id with
  | none => rfl
  | some w => simp [getWorkflow, getEntry_setEntry, hj]

theorem getWorkflow_after_block (s : MemStorage) (id : Nat) (bs : BSValue)
    (t : Nat) (w : Workflow) (hw : getWorkflow s id = some w) :
    getWorkflow (updateWorkflowBlockStructure s id bs t).2 id
      = some { w with blockStructure := some bs, updatedAt := t } := by
  unfold updateWorkflowBlockStructure
  rw [hw]
  simp [getWorkflow, getEntry_setEntry]

theorem getWorkflow_after_block_other (s : MemStorage) (id : Nat) (bs : BSValue)
    (t : Nat) (j : Nat) (hj : j ≠ id) :
    getWorkflow (updateWorkflowBlockStructure s id bs t).2 j = getWorkflow s j := by
  unfold updateWorkflowBlockStructure
  cases hw : getWorkflow s id with
  | none => rfl
  | some w => simp [getWorkflow, getEntry_setEntry, hj]

/-- C9: each store update operation returns `undefined` and leaves the
store untouched when the id is unknown; when the workflow exists it
replaces exactly the targeted field and `updatedAt`, all other fields of
the record unchanged, and touches no other record. -/
theorem storage_update_semantics (s : MemStorage) (id : Nat) (st : String)
    (raw : RawWorkflowExtraction) (org : OrganizedWorkflow) (bs : BSValue)
    (t : Nat) :
    (getWorkflow s id = none →
        updateWorkflowStatus s id st t = (none, s)
      ∧ updateWorkflowRawExtraction s id raw t = (none, s)
      ∧ updateWorkflowOrganizedData s id org t = (none, s)
      ∧ updateWorkflowBlockStructure s id bs t = (none, s))
  ∧ (∀ w, getWorkflow s id = some w →
        updateWorkflowStatus s id st t
          = (some { w with status := st, updatedAt := t },
             { s with workflows := (setEntry s.workflows id
                   ({ w with status := st, updatedAt := t })) })
      ∧ updateWorkflowRawExtraction s id raw t
          = (some { w with rawExtraction := some raw, updatedAt := t },
             { s with workflows := (setEntry s.workflows id
                   ({ w with rawExtraction := some raw, updatedAt := t })) })
      ∧ updateWorkflowOrganizedData s id org t
          = (some { w with organizedWorkflow := some org, updatedAt := t },
             { s with workflows := (setEntry s.workflows id
                   ({ w with organizedWorkflow := some org, updatedAt := t })) })
      ∧ updateWorkflowBlockStructure s id bs t
          = (some { w with blockStructure := some bs, updatedAt := t },
             { s with workflows := (setEntry s.workflows id
                   ({ w with blockStructure := some bs, updatedAt := t })) })) := by
  constructor
  · intro hnone
    refine ⟨?_, ?_, ?_, ?_⟩ <;>
      simp [updateWorkflowStatus, updateWorkflowRawExtraction,
            updateWorkflowOrganizedData, updateWorkflowBlockStructure, hnone]
  · intro w hw
    refine ⟨?_, ?_, ?_, ?_⟩ <;>
      simp [updateWorkflowStatus, updateWorkflowRawExtraction,
            updateWorkflowOrganizedData, updateWorkflowBlockStructure, hw]

/-- Witness for C9 at the demo store: unknown id 2 leaves the store
unchanged; known id 1 rewrites exactly status and `updatedAt`. -/
theorem storage_update_semantics_witness :
    updateWorkflowStatus demoStore 2 statusFailed 5 = (none, demoStore)
  ∧ updateWorkflowStatus demoStore 1 statusFailed 5
      = (some { demoWorkflow with status := statusFailed, updatedAt := 5 },
         { demoStore with workflows := (setEntry demoStore.workflows 1
               ({ demoWorkflow with status := statusFailed, updatedAt := 5 })) }) := by
  constructor
  · exact ((storage_update_semantics demoStore 2 statusFailed demoRaw demoOrg
      demoBS 5).1 rfl).1
  · exact (((storage_update_semantics demoStore 1 statusFailed demoRaw demoOrg
      demoBS 5).2 demoWorkflow rfl)).1

/-- C8: the PUT block-structure route returns 400 and does not mutate the
store when the body misses the `blocks` or `connections` key (given the
workflow exists), and returns 404 without mutation when the id is
unknown. -/
theorem putWorkflowBlocks_errors (s : MemStorage) (id : Nat) (b : BSValue)
    (t : Nat) :
    (getWorkflow s id ≠ none → (b.blocks = none ∨ b.connections = none) →
        putWorkflowBlocks s id (some b) t = (PutBlocksResponse.badRequest, s))
  ∧ (∀ body, getWorkflow s id = none →
        putWorkflowBlocks s id body t = (PutBlocksResponse.notFound, s)) := by
  constructor
  · intro hsome hbad
    unfold putWorkflowBlocks
    cases hw : getWorkflow s id with
    | none => exact absurd hw hsome
    | some w => simp [hbad]
  · intro body hnone
    unfold putWorkflowBlocks
    rw [hnone]

/-- Witness for C8: a body with `connections` missing is rejected with 400
and the store is unchanged; an unknown id yields 404 unchanged. -/
theorem putWorkflowBlocks_errors_witness :
    putWorkflowBlocks demoStore 1
        (some { blocks := some [], sources := none, connections := none }) 7
      = (PutBlocksResponse.badRequest, demoStore)
  ∧ putWorkflowBlocks demoStore 99 (some demoBS) 7
      = (PutBlocksResponse.notFound, demoStore) := by
  constructor
  · exact (putWorkflowBlocks_errors demoStore 1
      { blocks := some [], sources := none, connections := none } 7).1
      (by decide) (by decide)
  · exact (putWorkflowBlocks_errors demoStore 99 demoBS 7).2 (some demoBS) rfl

theorem overallOf_eq_nat (w : Workflow) :
    overallOf w = (((progressComponents w).1 + 3 * (progressComponents w).2.1
      + 3 * (progressComponents w).2.2.1 + 3 * (progressComponents w).2.2.2
      + 5) / 10 : ℕ) :=
  jsRound_weighted _ _ _ _

theorem getWorkflowStatus_some (s : MemStorage) (id : Nat) (w : Workflow)
    (hw : getWorkflow s id = some w) :
    getWorkflowStatus s id = some
      { status := w.status,
        progress :=
          { videoProcessing := (progressComponents w).1,
            rawExtraction := (progressComponents w).2.1,
            organization := (progressComponents w).2.2.1,
            blockGeneration := (progressComponents w).2.2.2,
            overall := overallOf w },
        estimatedTimeRemaining :=
          (if w.status = statusProcessing ∧ overallOf w < 100
           then some ((100 - overallOf w) * 1) else none) } := by
  unfold getWorkflowStatus overallOf
  rw [hw]

/-- C6: for every stored workflow, the reported `overall` is exactly the
half-up rounding of `0.1·videoProcessing + 0.3·rawExtraction +
0.3·organization + 0.3·blockGeneration`, each component lies in
`{0, 50, 100}`, and `estimatedTimeRemaining` is `(100 − overall) × 1`
exactly when the status is `processing` and `overall < 100`, and absent
otherwise. -/
theorem getWorkflowStatus_formula (s : MemStorage) (id : Nat)
    (res : WorkflowStatusResult) (h : getWorkflowStatus s id = some res) :
    res.progress.overall =
      jsRound ((res.progress.videoProcessing : ℚ) * (1/10)
        + (res.progress.rawExtraction : ℚ) * (3/10)
        + (res.progress.organization : ℚ) * (3/10)
        + (res.progress.blockGeneration : ℚ) * (3/10))
  ∧ res.progress.videoProcessing ∈ ([0, 50, 100] : List Nat)
  ∧ res.progress.rawExtraction ∈ ([0, 50, 100] : List Nat)
  ∧ res.progress.organization ∈ ([0, 50, 100] : List Nat)
  ∧ res.progress.blockGeneration ∈ ([0, 50, 100] : List Nat)
  ∧ res.estimatedTimeRemaining
      = (if res.status = statusProcessing ∧ res.progress.overall < 100
         then some ((100 - res.progress.overall) * 1) else none) := by
  cases hw : getWorkflow s id with
  | none => rw [getWorkflowStatus, hw] at h; exact absurd h (by simp)
  | some w =>
      rw [getWorkflowStatus_some s id w hw] at h
      obtain rfl : _ = res := Option.some.injEq _ _ ▸ h
      refine ⟨rfl, ?_, ?_, ?_, ?_, rfl⟩
      · exact (progressComponents_mem w).1
      · exact (progressComponents_mem w).2.1
      · exact (progressComponents_mem w).2.2.1
      · exact (progressComponents_mem w).2.2.2

/-- Witness for C6 at the freshly created (pending) demo workflow. -/
theorem getWorkflowStatus_formula_witness :
    (0 : Int) = jsRound (((0 : Nat) : ℚ) * (1/10) + ((0 : Nat) : ℚ) * (3/10)
        + ((0 : Nat) : ℚ) * (3/10) + ((0 : Nat) : ℚ) * (3/10))
  ∧ (0 : Nat) ∈ ([0, 50, 100] : List Nat)
  ∧ (none : Option Int)
      = (if statusPending = statusProcessing ∧ (0 : Int) < 100
         then some ((100 - (0 : Int)) * 1) else none) := by
  have hsome : getWorkflowStatus demoStore 1 = some
      { status := statusPending,
        progress := { videoProcessing := 0, rawExtraction := 0,
                      organization := 0, blockGeneration := 0, overall := 0 },
        estimatedTimeRemaining := none } := by
    rw [getWorkflowStatus_some demoStore 1 demoWorkflow rfl]
    have hov : overallOf demoWorkflow = 0 := by
      rw [overallOf_eq_nat]; decide
    have hpc : progressComponents demoWorkflow = (0, 0, 0, 0) := by decide
    simp [hov, hpc]
    constructor <;> decide
  have h := getWorkflowStatus_formula demoStore 1 _ hsome
  exact ⟨h.1, h.2.1, h.2.2.2.2.2⟩

/-- C10: a `pending` workflow reports all-zero progress and no ETA; a
`completed` workflow reports 100 everywhere regardless of which staged
artifacts are present on the record. -/
theorem getWorkflowStatus_pending_completed (s : MemStorage) (id : Nat)
    (w : Workflow) (hw : getWorkflow s id = some w) :
    (w.status = statusPending →
        getWorkflowStatus s id = some
          { status := statusPending,
            progress := { videoProcessing := 0, rawExtraction := 0,
                          organization := 0, blockGeneration := 0,
                          overall := 0 },
            estimatedTimeRemaining := none })
  ∧ (w.status = statusCompleted →
        getWorkflowStatus s id = some
          { status := statusCompleted,
            progress := { videoProcessing := 100, rawExtraction := 100,
                          organization := 100, blockGeneration := 100,
                          overall := 100 },
            estimatedTimeRemaining := none }) := by
  constructor
  · intro hp
    rw [getWorkflowStatus_some s id w hw]
    have hpc : progressComponents w = (0, 0, 0, 0) := by
      unfold progressComponents
      rw [hp]
      simp [statusPending, statusCompleted, statusFailed, statusProcessing]
    have hov : overallOf w = 0 := by
      rw [overallOf_eq_nat, hpc]; decide
    rw [hov, hp, hpc]
    simp [statusPending, statusProcessing]
  · intro hc
    rw [getWorkflowStatus_some s id w hw]
    have hpc : progressComponents w = (100, 100, 100, 100) := by
      unfold progressComponents
      rw [hc]
      simp [statusPending, statusCompleted, statusFailed, statusProcessing]
    have hov : overallOf w = 100 := by
      rw [overallOf_eq_nat, hpc]; decide
    rw [hov, hc, hpc]
    simp [statusCompleted, statusProcessing]

/-- Witness for C10: the pending demo workflow reports zeros, and after a
direct status write to `completed` (artifacts still null) it reports 100
everywhere. -/
theorem getWorkflowStatus_pending_completed_witness :
    getWorkflowStatus demoStore 1 = some
      { status := statusPending,
        progress := { videoProcessing := 0, rawExtraction := 0,
                      organization := 0, blockGeneration := 0, overall := 0 },
        estimatedTimeRemaining := none }
  ∧ getWorkflowStatus (updateWorkflowStatus demoStore 1 statusCompleted 3).2 1
      = some
      { status := statusCompleted,
        progress := { videoProcessing := 100, rawExtraction := 100,
                      organization := 100, blockGeneration := 100,
                      overall := 100 },
        estimatedTimeRemaining := none } := by
  constructor
  · exact (getWorkflowStatus_pending_completed demoStore 1 demoWorkflow rfl).1 rfl
  · exact (getWorkflowStatus_pending_completed
      (updateWorkflowStatus demoStore 1 statusCompleted 3).2 1
      { demoWorkflow with status := statusCompleted, updatedAt := 3 }
      (getWorkflow_after_status demoStore 1 statusCompleted 3 demoWorkflow rfl)).2
      rfl

theorem processWorkflow_frameFail (env : PipelineEnv) (s0 : MemStorage)
    (workflowId t : Nat) (w : Workflow) (lp pp e : String)
    (hw : getWorkflow s0 workflowId = some w)
    (hvp : w.videoPath.getD "" ≠ "")
    (hres : resolveLocalVideo env (w.videoPath.getD "") = Except.ok lp)
    (hlp : lp ≠ "")
    (hval : env.validationOk = true)
    (hpre : env.preprocessResult = Except.ok pp)
    (hframe : env.frameResult = Except.error e) :
    processWorkflow env s0 workflowId t =
      { ok := false,
        store := (updateWorkflowStatus
            (updateWorkflowStatus s0 workflowId statusProcessing t).2
            workflowId statusFailed (t+1)).2,
        states := [s0,
          (updateWorkflowStatus s0 workflowId statusProcessing t).2,
          (updateWorkflowStatus
            (updateWorkflowStatus s0 workflowId statusProcessing t).2
            workflowId statusFailed (t+1)).2],
        audioUsed := none } := by
  unfold processWorkflow
  rw [hw]
  simp [hvp, hres, hlp, hval, hpre, hframe]

theorem processWorkflow_rawFail (env : PipelineEnv) (s0 : MemStorage)
    (workflowId t : Nat) (w : Workflow) (lp pp er : String)
    (frames : List String)
    (hw : getWorkflow s0 workflowId = some w)
    (hvp : w.videoPath.getD "" ≠ "")
    (hres : resolveLocalVideo env (w.videoPath.getD "") = Except.ok lp)
    (hlp : lp ≠ "")
    (hval : env.validationOk = true)
    (hpre : env.preprocessResult = Except.ok pp)
    (hframe : env.frameResult = Except.ok frames)
    (hstageR : extractRawWorkflowStage env.parseRaw env.rawApi
        = Except.error er) :
    processWorkflow env s0 workflowId t =
      { ok := false,
        store := (updateWorkflowStatus
            (updateWorkflowStatus s0 workflowId statusProcessing t).2
            workflowId statusFailed (t+1)).2,
        states := [s0,
          (updateWorkflowStatus s0 workflowId statusProcessing t).2,
          (updateWorkflowStatus
            (updateWorkflowStatus s0 workflowId statusProcessing t).2
            workflowId statusFailed (t+1)).2],
        audioUsed := some (audioTranscriptOf env) } := by
  unfold processWorkflow
  rw [hw]
  simp [hvp, hres, hlp, hval, hpre, hframe, hstageR]

theorem processWorkflow_orgFail (env : PipelineEnv) (s0 : MemStorage)
    (workflowId t : Nat) (w : Workflow) (lp pp eo : String)
    (frames : List String) (raw0 : RawWorkflowExtraction)
    (hw : getWorkflow s0 workflowId = some w)
    (hvp : w.videoPath.getD "" ≠ "")
    (hres : resolveLocalVideo env (w.videoPath.getD "") = Except.ok lp)
    (hlp : lp ≠ "")
    (hval : env.validationOk = true)
    (hpre : env.preprocessResult = Except.ok pp)
    (hframe : env.frameResult = Except.ok frames)
    (hstageR : extractRawWorkflowStage env.parseRaw env.rawApi
        = Except.ok raw0)
    (hstageO : organizeWorkflowStage env.parseOrg env.orgApi
        = Except.error eo) :
    processWorkflow env s0 workflowId t =
      { ok := false,
        store := (updateWorkflowStatus
            (updateWorkflowRawExtraction
              (updateWorkflowStatus s0 workflowId statusProcessing t).2
              workflowId raw0 (t+1)).2
            workflowId statusFailed (t+2)).2,
        states := [s0,
          (updateWorkflowStatus s0 workflowId statusProcessing t).2,
          (updateWorkflowRawExtraction
            (updateWorkflowStatus s0 workflowId statusProcessing t).2
            workflowId raw0 (t+1)).2,
          (updateWorkflowStatus
            (updateWorkflowRawExtraction
              (updateWorkflowStatus s0 workflowId statusProcessing t).2
              workflowId raw0 (t+1)).2
            workflowId statusFailed (t+2)).2],
        audioUsed := some (audioTranscriptOf env) } := by
  unfold processWorkflow
  rw [hw]
  simp [hvp, hres, hlp, hval, hpre, hframe, hstageR, hstageO]

theorem processWorkflow_blockFail (env : PipelineEnv) (s0 : MemStorage)
    (workflowId t : Nat) (w : Workflow) (lp pp eb : String)
    (frames : List String) (raw0 : RawWorkflowExtraction)
    (org0 : OrganizedWorkflow)
    (hw : getWorkflow s0 workflowId = some w)
    (hvp : w.videoPath.getD "" ≠ "")
    (hres : resolveLocalVideo env (w.videoPath.getD "") = Except.ok lp)
    (hlp : lp ≠ "")
    (hval : env.validationOk = true)
    (hpre : env.preprocessResult = Except.ok pp)
    (hframe : env.frameResult = Except.ok frames)
    (hstageR : extractRawWorkflowStage env.parseRaw env.rawApi
        = Except.ok raw0)
    (hstageO : organizeWorkflowStage env.parseOrg env.orgApi
        = Except.ok org0)
    (hstageB : generateBlockStructureStage env.parseBlock env.blockApi
        = Except.error eb) :
    processWorkflow env s0 workflowId t =
      { ok := false,
        store := (updateWorkflowStatus
            (updateWorkflowOrganizedData
              (updateWorkflowRawExtraction
                (updateWorkflowStatus s0 workflowId statusProcessing t).2
                workflowId raw0 (t+1)).2
              workflowId org0 (t+2)).2
            workflowId statusFailed (t+3)).2,
        states := [s0,
          (updateWorkflowStatus s0 workflowId statusProcessing t).2,
          (updateWorkflowRawExtraction
            (updateWorkflowStatus s0 workflowId statusProcessing t).2
            workflowId raw0 (t+1)).2,
          (updateWorkflowOrganizedData
            (updateWorkflowRawExtraction
              (updateWorkflowStatus s0 workflowId statusProcessing t).2
              workflowId raw0 (t+1)).2
            workflowId org0 (t+2)).2,
          (updateWorkflowStatus
            (updateWorkflowOrganizedData
              (updateWorkflowRawExtraction
                (updateWorkflowStatus s0 workflowId statusProcessing t).2
                workflowId raw0 (t+1)).2
              workflowId org0 (t+2)).2
            workflowId statusFailed (t+3)).2],
        audioUsed := some (audioTranscriptOf env) } := by
  unfold processWorkflow
  rw [hw]
  simp [hvp, hres, hlp, hval, hpre, hframe, hstageR, hstageO, hstageB]

theorem processWorkflow_success (env : PipelineEnv) (s0 : MemStorage)
    (workflowId t : Nat) (w : Workflow) (lp pp : String)
    (frames : List String) (raw0 : RawWorkflowExtraction)
    (org0 : OrganizedWorkflow) (bs0 : ParsedBlockStructure)
    (hw : getWorkflow s0 workflowId = some w)
    (hvp : w.videoPath.getD "" ≠ "")
    (hres : resolveLocalVideo env (w.videoPath.getD "") = Except.ok lp)
    (hlp : lp ≠ "")
    (hval : env.validationOk = true)
    (hpre : env.preprocessResult = Except.ok pp)
    (hframe : env.frameResult = Except.ok frames)
    (hstageR : extractRawWorkflowStage env.parseRaw env.rawApi
        = Except.ok raw0)
    (hstageO : organizeWorkflowStage env.parseOrg env.orgApi
        = Except.ok org0)
    (hstageB : generateBlockStructureStage env.parseBlock env.blockApi
        = Except.ok bs0) :
    processWorkflow env s0 workflowId t =
      { ok := true,
        store := (updateWorkflowStatus
            (updateWorkflowBlockStructure
              (updateWorkflowOrganizedData
                (updateWorkflowRawExtraction
                  (updateWorkflowStatus s0 workflowId statusProcessing t).2
                  workflowId raw0 (t+1)).2
                workflowId org0 (t+2)).2
              workflowId (toBSValue bs0) (t+3)).2
            workflowId statusCompleted (t+4)).2,
        states := [s0,
          (updateWorkflowStatus s0 workflowId statusProcessing t).2,
          (updateWorkflowRawExtraction
            (updateWorkflowStatus s0 workflowId statusProcessing t).2
            workflowId raw0 (t+1)).2,
          (updateWorkflowOrganizedData
            (updateWorkflowRawExtraction
              (updateWorkflowStatus s0 workflowId statusProcessing t).2
              workflowId raw0 (t+1)).2
            workflowId org0 (t+2)).2,
          (updateWorkflowBlockStructure
            (updateWorkflowOrganizedData
              (updateWorkflowRawExtraction
                (updateWorkflowStatus s0 workflowId statusProcessing t).2
                workflowId raw0 (t+1)).2
              workflowId org0 (t+2)).2
            workflowId (toBSValue bs0) (t+3)).2,
          (updateWorkflowStatus
            (updateWorkflowBlockStructure
              (updateWorkflowOrganizedData
                (updateWorkflowRawExtraction
                  (updateWorkflowStatus s0 workflowId statusProcessing t).2
                  workflowId raw0 (t+1)).2
                workflowId org0 (t+2)).2
              workflowId (toBSValue bs0) (t+3)).2
            workflowId statusCompleted (t+4)).2],
        audioUsed := some (audioTranscriptOf env) } := by
  unfold processWorkflow
  rw [hw]
  simp [hvp, hres, hlp, hval, hpre, hframe, hstageR, hstageO, hstageB]

/-- C4: for a model response in which no well-formed JSON block can be
located and parsed, each of the three generation stages throws a fatal
error (never a fallback value); the orchestrator then sets the workflow to
`failed`, runs no further stage, and retains every artifact already
written (the final record differs from the pre-run record only in status,
`updatedAt`, and the artifacts written by earlier successful stages). -/
theorem unparsable_response_fatal
    (text : String)
    (pR : String → Option RawWorkflowExtraction)
    (pO : String → Option OrganizedWorkflow)
    (pB : String → Option ParsedBlockStructure)
    (hpR : pR (extractJsonBlock text) = none)
    (hpO : pO (extractJsonBlock text) = none)
    (hpB : pB (extractJsonBlock text) = none)
    (env : PipelineEnv) (s0 : MemStorage) (workflowId t : Nat) (w : Workflow)
    (lp pp : String) (frames : List String)
    (hw : getWorkflow s0 workflowId = some w)
    (hvp : w.videoPath.getD "" ≠ "")
    (hres : resolveLocalVideo env (w.videoPath.getD "") = Except.ok lp)
    (hlp : lp ≠ "")
    (hval : env.validationOk = true)
    (hpre : env.preprocessResult = Except.ok pp)
    (hframe : env.frameResult = Except.ok frames) :
    extractRawWorkflowStage pR (Except.ok text)
        = Except.error (stageMsgRaw ++ parseFailMsg methodRaw)
  ∧ organizeWorkflowStage pO (Except.ok text)
        = Except.error (stageMsgOrg ++ parseFailMsg methodOrg)
  ∧ generateBlockStructureStage pB (Except.ok text)
        = Except.error (stageMsgBlock ++ parseFailMsg methodBlock)
  ∧ (env.rawApi = Except.ok text → env.parseRaw = pR →
        (processWorkflow env s0 workflowId t).ok = false
      ∧ getWorkflow (processWorkflow env s0 workflowId t).store workflowId
          = some { w with status := statusFailed, updatedAt := t+1 })
  ∧ (∀ raw0, extractRawWorkflowStage env.parseRaw env.rawApi = Except.ok raw0 →
        env.orgApi = Except.ok text → env.parseOrg = pO →
        (processWorkflow env s0 workflowId t).ok = false
      ∧ getWorkflow (processWorkflow env s0 workflowId t).store workflowId
          = some { w with rawExtraction := some raw0,
                          status := statusFailed, updatedAt := t+2 })
  ∧ (∀ raw0 org0,
        extractRawWorkflowStage env.parseRaw env.rawApi = Except.ok raw0 →
        organizeWorkflowStage env.parseOrg env.orgApi = Except.ok org0 →
        env.blockApi = Except.ok text → env.parseBlock = pB →
        (processWorkflow env s0 workflowId t).ok = false
      ∧ getWorkflow (processWorkflow env s0 workflowId t).store workflowId
          = some { w with rawExtraction := some raw0,
                          organizedWorkflow := some org0,
                          status := statusFailed, updatedAt := t+3 }) := by
  refine ⟨?_, ?_, ?_, ?_, ?_, ?_⟩
  · simp [extractRawWorkflowStage, parseJsonResponse, hpR]
  · simp [organizeWorkflowStage, parseJsonResponse, hpO]
  · simp [generateBlockStructureStage, parseJsonResponse, hpB]
  · intro h1 h2
    have hstageR : extractRawWorkflowStage env.parseRaw env.rawApi
        = Except.error (stageMsgRaw ++ parseFailMsg methodRaw) := by
      rw [h1, h2]
      simp [extractRawWorkflowStage, parseJsonResponse, hpR]
    rw [processWorkflow_rawFail env s0 workflowId t w lp pp _ frames
      hw hvp hres hlp hval hpre hframe hstageR]
    refine ⟨rfl, ?_⟩
    have g1 := getWorkflow_after_status s0 workflowId statusProcessing t w hw
    have g2 := getWorkflow_after_status _ workflowId statusFailed (t+1) _ g1
    exact g2
  · intro raw0 hstageR h1 h2
    have hstageO : organizeWorkflowStage env.parseOrg env.orgApi
        = Except.error (stageMsgOrg ++ parseFailMsg methodOrg) := by
      rw [h1, h2]
      simp [organizeWorkflowStage, parseJsonResponse, hpO]
    rw [processWorkflow_orgFail env s0 workflowId t w lp pp _ frames raw0
      hw hvp hres hlp hval hpre hframe hstageR hstageO]
    refine ⟨rfl, ?_⟩
    have g1 := getWorkflow_after_status s0 workflowId statusProcessing t w hw
    have g2 := getWorkflow_after_raw _ workflowId raw0 (t+1) _ g1
    have g3 := getWorkflow_after_status _ workflowId statusFailed (t+2) _ g2
    exact g3
  · intro raw0 org0 hstageR hstageO h1 h2
    have hstageB : generateBlockStructureStage env.parseBlock env.blockApi
        = Except.error (stageMsgBlock ++ parseFailMsg methodBlock) := by
      rw [h1, h2]
      simp [generateBlockStructureStage, parseJsonResponse, hpB]
    rw [processWorkflow_blockFail env s0 workflowId t w lp pp _ frames raw0
      org0 hw hvp hres hlp hval hpre hframe hstageR hstageO hstageB]
    refine ⟨rfl, ?_⟩
    have g1 := getWorkflow_after_status s0 workflowId statusProcessing t w hw
    have g2 := getWorkflow_after_raw _ workflowId raw0 (t+1) _ g1
    have g3 := getWorkflow_after_org _ workflowId org0 (t+2) _ g2
    have g4 := getWorkflow_after_status _ workflowId statusFailed (t+3) _ g3
    exact g4

/-- Witness for C4: the unparsable fixture response kills the synthesis
stage and the run marks demo workflow 1 failed with no artifacts
written. -/
theorem unparsable_response_fatal_witness :
    extractRawWorkflowStage (fun _ => none) (Except.ok textNoJson)
        = Except.error (stageMsgRaw ++ parseFailMsg methodRaw)
  ∧ (processWorkflow envC4 demoStore 1 0).ok = false
  ∧ getWorkflow (processWorkflow envC4 demoStore 1 0).store 1
      = some { demoWorkflow with status := statusFailed, updatedAt := 1 } := by
  have h := unparsable_response_fatal textNoJson
    (fun _ => none) (fun _ => none) (fun _ => none) rfl rfl rfl
    envC4 demoStore 1 0 demoWorkflow demoVideoPath demoVideoPath [frameA]
    rfl (by decide) rfl (by decide) rfl rfl rfl
  have h4 := h.2.2.2.1 rfl rfl
  exact ⟨h.1, h4.1, h4.2⟩

theorem transcribeAudio_recognize_error (te : TranscribeEnv) (e : String)
    (h : te.recognizeResult = Except.error e) : transcribeAudio te = "" := by
  unfold transcribeAudio
  by_cases h1 : te.gcsBucketName = "" <;>
    by_cases h2 : te.uploadOk = false <;>
    simp [h1, h2, h]

/-- C5: the orchestrator joins the frame and audio branches before the
synthesis stage; an audio-branch failure (audio extraction error, or a
transcription failure, which `transcribeAudio` converts to `""` itself)
degrades the narration transcript to `""` and the run still writes the
`rawExtraction` artifact, while a frame-branch failure fails the whole
pipeline with no later artifacts written. -/
theorem audio_soft_frame_hard
    (env : PipelineEnv) (s0 : MemStorage) (workflowId t : Nat) (w : Workflow)
    (lp pp : String)
    (hw : getWorkflow s0 workflowId = some w)
    (hvp : w.videoPath.getD "" ≠ "")
    (hres : resolveLocalVideo env (w.videoPath.getD "") = Except.ok lp)
    (hlp : lp ≠ "")
    (hval : env.validationOk = true)
    (hpre : env.preprocessResult = Except.ok pp) :
    (∀ frames raw0 ea, env.frameResult = Except.ok frames →
        env.audioExtract = Except.error ea →
        extractRawWorkflowStage env.parseRaw env.rawApi = Except.ok raw0 →
        (processWorkflow env s0 workflowId t).audioUsed = some ""
      ∧ (getWorkflow (processWorkflow env s0 workflowId t).store workflowId).map
            Workflow.rawExtraction = some (some raw0))
  ∧ (∀ frames raw0 ap et, env.frameResult = Except.ok frames →
        env.audioExtract = Except.ok ap →
        env.transcribeEnv.recognizeResult = Except.error et →
        extractRawWorkflowStage env.parseRaw env.rawApi = Except.ok raw0 →
        (processWorkflow env s0 workflowId t).audioUsed = some ""
      ∧ (getWorkflow (processWorkflow env s0 workflowId t).store workflowId).map
            Workflow.rawExtraction = some (some raw0))
  ∧ (∀ ef, env.frameResult = Except.error ef →
        (processWorkflow env s0 workflowId t).ok = false
      ∧ getWorkflow (processWorkflow env s0 workflowId t).store workflowId
          = some { w with status := statusFailed, updatedAt := t+1 }) := by
  have hraw : ∀ frames raw0, env.frameResult = Except.ok frames →
      extractRawWorkflowStage env.parseRaw env.rawApi = Except.ok raw0 →
      (getWorkflow (processWorkflow env s0 workflowId t).store workflowId).map
          Workflow.rawExtraction = some (some raw0) := by
    intro frames raw0 hframe hstageR
    cases hstageO : organizeWorkflowStage env.parseOrg env.orgApi with
    | error eo =>
        rw [processWorkflow_orgFail env s0 workflowId t w lp pp eo frames raw0
          hw hvp hres hlp hval hpre hframe hstageR hstageO]
        have g1 := getWorkflow_after_status s0 workflowId statusProcessing t w hw
        have g2 := getWorkflow_after_raw _ workflowId raw0 (t+1) _ g1
        have g3 := getWorkflow_after_status _ workflowId statusFailed (t+2) _ g2
        rw [g3]
        rfl
    | ok org0 =>
        cases hstageB : generateBlockStructureStage env.parseBlock env.blockApi with
        | error eb =>
            rw [processWorkflow_blockFail env s0 workflowId t w lp pp eb frames
              raw0 org0 hw hvp hres hlp hval hpre hframe hstageR hstageO hstageB]
            have g1 := getWorkflow_after_status s0 workflowId statusProcessing t w hw
            have g2 := getWorkflow_after_raw _ workflowId raw0 (t+1) _ g1
            have g3 := getWorkflow_after_org _ workflowId org0 (t+2) _ g2
            have g4 := getWorkflow_after_status _ workflowId statusFailed (t+3) _ g3
            rw [g4]
            rfl
        | ok bs0 =>
            rw [processWorkflow_success env s0 workflowId t w lp pp frames raw0
              org0 bs0 hw hvp hres hlp hval hpre hframe hstageR hstageO hstageB]
            have g1 := getWorkflow_after_status s0 workflowId statusProcessing t w hw
            have g2 := getWorkflow_after_raw _ workflowId raw0 (t+1) _ g1
            have g3 := getWorkflow_after_org _ workflowId org0 (t+2) _ g2
            have g4 := getWorkflow_after_block _ workflowId (toBSValue bs0) (t+3) _ g3
            have g5 := getWorkflow_after_status _ workflowId statusCompleted (t+4) _ g4
            rw [g5]
            rfl
  have haudio : ∀ frames raw0, env.frameResult = Except.ok frames →
      extractRawWorkflowStage env.parseRaw env.rawApi = Except.ok raw0 →
      (processWorkflow env s0 workflowId t).audioUsed
        = some (audioTranscriptOf env) := by
    intro frames raw0 hframe hstageR
    cases hstageO : organizeWorkflowStage env.parseOrg env.orgApi with
    | error eo =>
        rw [processWorkflow_orgFail env s0 workflowId t w lp pp eo frames raw0
          hw hvp hres hlp hval hpre hframe hstageR hstageO]
    | ok org0 =>
        cases hstageB : generateBlockStructureStage env.parseBlock env.blockApi with
        | error eb =>
            rw [processWorkflow_blockFail env s0 workflowId t w lp pp eb frames
              raw0 org0 hw hvp hres hlp hval hpre hframe hstageR hstageO hstageB]
        | ok bs0 =>
            rw [processWorkflow_success env s0 workflowId t w lp pp frames raw0
              org0 bs0 hw hvp hres hlp hval hpre hframe hstageR hstageO hstageB]
  refine ⟨?_, ?_, ?_⟩
  · intro frames raw0 ea hframe haud hstageR
    refine ⟨?_, hraw frames raw0 hframe hstageR⟩
    rw [haudio frames raw0 hframe hstageR]
    unfold audioTranscriptOf
    rw [haud]
  · intro frames raw0 ap et hframe haud hrec hstageR
    refine ⟨?_, hraw frames raw0 hframe hstageR⟩
    rw [haudio frames raw0 hframe hstageR]
    unfold audioTranscriptOf
    rw [haud, transcribeAudio_recognize_error env.transcribeEnv et hrec]
  · intro ef hframe
    rw [processWorkflow_frameFail env s0 workflowId t w lp pp ef
      hw hvp hres hlp hval hpre hframe]
    refine ⟨rfl, ?_⟩
    have g1 := getWorkflow_after_status s0 workflowId statusProcessing t w hw
    have g2 := getWorkflow_after_status _ workflowId statusFailed (t+1) _ g1
    exact g2

/-- Witness for C5: with the audio branch failing and all stages parsing,
the demo run uses an empty narration transcript and still persists the
raw-extraction artifact. -/
theorem audio_soft_frame_hard_witness :
    (processWorkflow envC5 demoStore 1 0).audioUsed = some ""
  ∧ (getWorkflow (processWorkflow envC5 demoStore 1 0).store 1).map
        Workflow.rawExtraction = some (some demoRaw) := by
  have h := audio_soft_frame_hard envC5 demoStore 1 0 demoWorkflow
    demoVideoPath demoVideoPath rfl (by decide) rfl (by decide) rfl rfl
  exact h.1 [frameA] demoRaw audioErrDemo rfl rfl rfl

theorem statusOverall_eq (s : MemStorage) (id : Nat) (w : Workflow)
    (hw : getWorkflow s id = some w) : statusOverall s id = overallOf w := by
  unfold statusOverall
  rw [getWorkflowStatus_some s id w hw]

/-- Counterexample to C7 as stated: polling the demo workflow just after
it enters `processing` reports overall 25, and polling again after video
validation fails reports overall 5 — successive polls of the same
non-retried run are not non-decreasing. -/
theorem progress_monotonicity_counterexample :
    runOveralls envC7 demoStore 1 0 = [0, 25, 5]
  ∧ ¬ List.Chain' (· ≤ ·) (runOveralls envC7 demoStore 1 0) := by
  have hstates : (processWorkflow envC7 demoStore 1 0).states =
      [demoStore,
       (updateWorkflowStatus demoStore 1 statusProcessing 0).2,
       (updateWorkflowStatus
         (updateWorkflowStatus demoStore 1 statusProcessing 0).2
         1 statusFailed 1).2] := rfl
  have g1 := getWorkflow_after_status demoStore 1 statusProcessing 0
    demoWorkflow rfl
  have g2 := getWorkflow_after_status _ 1 statusFailed 1 _ g1
  have h0 : statusOverall demoStore 1 = 0 := by
    rw [statusOverall_eq demoStore 1 demoWorkflow rfl, overallOf_eq_nat]
    decide
  have h1 : statusOverall
      (updateWorkflowStatus demoStore 1 statusProcessing 0).2 1 = 25 := by
    rw [statusOverall_eq _ 1 _ g1, overallOf_eq_nat]
    decide
  have h2 : statusOverall
      (updateWorkflowStatus
        (updateWorkflowStatus demoStore 1 statusProcessing 0).2
        1 statusFailed 1).2 1 = 5 := by
    rw [statusOverall_eq _ 1 _ g2, overallOf_eq_nat]
    decide
  have hov : runOveralls envC7 demoStore 1 0 = [0, 25, 5] := by
    unfold runOveralls
    rw [hstates]
    simp only [List.map]
    rw [h0, h1, h2]
  refine ⟨hov, ?_⟩
  rw [hov]
  simp [List.chain'_cons]

/-- C7 amended: along a run every stage of which succeeds (the workflow
ends `completed`), the overall values observable by successive polls are
non-decreasing (`0, 25, 55, 85, 100, 100`); a failing run, by contrast,
can report a smaller overall after the failure (see the counterexample). -/
theorem progress_monotone_successful_run
    (env : PipelineEnv) (s0 : MemStorage) (workflowId t : Nat) (w : Workflow)
    (lp pp : String) (frames : List String) (raw0 : RawWorkflowExtraction)
    (org0 : OrganizedWorkflow) (bs0 : ParsedBlockStructure)
    (hw : getWorkflow s0 workflowId = some w)
    (hpend : w.status = statusPending)
    (hr0 : w.rawExtraction = none)
    (ho0 : w.organizedWorkflow = none)
    (hb0 : w.blockStructure = none)
    (hvp : w.videoPath.getD "" ≠ "")
    (hres : resolveLocalVideo env (w.videoPath.getD "") = Except.ok lp)
    (hlp : lp ≠ "")
    (hval : env.validationOk = true)
    (hpre : env.preprocessResult = Except.ok pp)
    (hframe : env.frameResult = Except.ok frames)
    (hstageR : extractRawWorkflowStage env.parseRaw env.rawApi
        = Except.ok raw0)
    (hstageO : organizeWorkflowStage env.parseOrg env.orgApi
        = Except.ok org0)
    (hstageB : generateBlockStructureStage env.parseBlock env.blockApi
        = Except.ok bs0) :
    runOveralls env s0 workflowId t = [0, 25, 55, 85, 100, 100]
  ∧ List.Chain' (· ≤ ·) (runOveralls env s0 workflowId t) := by
  have g1 := getWorkflow_after_status s0 workflowId statusProcessing t w hw
  have g2 := getWorkflow_after_raw _ workflowId raw0 (t+1) _ g1
  have g3 := getWorkflow_after_org _ workflowId org0 (t+2) _ g2
  have g4 := getWorkflow_after_block _ workflowId (toBSValue bs0) (t+3) _ g3
  have g5 := getWorkflow_after_status _ workflowId statusCompleted (t+4) _ g4
  have h0 : statusOverall s0 workflowId = 0 := by
    rw [statusOverall_eq _ _ _ hw, overallOf_eq_nat]
    have hpc : progressComponents w = (0, 0, 0, 0) := by
      unfold progressComponents
      rw [hpend]
      simp [statusPending, statusCompleted, statusFailed, statusProcessing]
    rw [hpc]
    decide
  have h1 : statusOverall
      (updateWorkflowStatus s0 workflowId statusProcessing t).2 workflowId
        = 25 := by
    rw [statusOverall_eq _ _ _ g1, overallOf_eq_nat]
    simp [progressComponents, statusPending, statusCompleted, statusFailed,
      statusProcessing, hr0]
  have h2 : statusOverall
      (updateWorkflowRawExtraction
        (updateWorkflowStatus s0 workflowId statusProcessing t).2
        workflowId raw0 (t+1)).2 workflowId = 55 := by
    rw [statusOverall_eq _ _ _ g2, overallOf_eq_nat]
    simp [progressComponents, statusPending, statusCompleted, statusFailed,
      statusProcessing, ho0]
  have h3 : statusOverall
      (updateWorkflowOrganizedData
        (updateWorkflowRawExtraction
          (updateWorkflowStatus s0 workflowId statusProcessing t).2
          workflowId raw0 (t+1)).2
        workflowId org0 (t+2)).2 workflowId = 85 := by
    rw [statusOverall_eq _ _ _ g3, overallOf_eq_nat]
    simp [progressComponents, statusPending, statusCompleted, statusFailed,
      statusProcessing, hb0]
  have h4 : statusOverall
      (updateWorkflowBlockStructure
        (updateWorkflowOrganizedData
          (updateWorkflowRawExtraction
            (updateWorkflowStatus s0 workflowId statusProcessing t).2
            workflowId raw0 (t+1)).2
          workflowId org0 (t+2)).2
        workflowId (toBSValue bs0) (t+3)).2 workflowId = 100 := by
    rw [statusOverall_eq _ _ _ g4, overallOf_eq_nat]
    simp [progressComponents, statusPending, statusCompleted, statusFailed,
      statusProcessing]
  have h5 : statusOverall
      (updateWorkflowStatus
        (updateWorkflowBlockStructure
          (updateWorkflowOrganizedData
            (updateWorkflowRawExtraction
              (updateWorkflowStatus s0 workflowId statusProcessing t).2
              workflowId raw0 (t+1)).2
            workflowId org0 (t+2)).2
          workflowId (toBSValue bs0) (t+3)).2
        workflowId statusCompleted (t+4)).2 workflowId = 100 := by
    rw [statusOverall_eq _ _ _ g5, overallOf_eq_nat]
    simp [progressComponents, statusCompleted]
  have hov : runOveralls env s0 workflowId t = [0, 25, 55, 85, 100, 100] := by
    unfold runOveralls
    rw [processWorkflow_success env s0 workflowId t w lp pp frames raw0 org0
      bs0 hw hvp hres hlp hval hpre hframe hstageR hstageO hstageB]
    simp only [List.map]
    rw [h0, h1, h2, h3, h4, h5]
  refine ⟨hov, ?_⟩
  rw [hov]
  simp [List.chain'_cons]

/-- Witness for the amended C7: the all-stages-succeed demo run reports
the non-decreasing overall trace `0, 25, 55, 85, 100, 100`. -/
theorem progress_monotone_successful_run_witness :
    runOveralls envC5 demoStore 1 0 = [0, 25, 55, 85, 100, 100]
  ∧ List.Chain' (· ≤ ·) (runOveralls envC5 demoStore 1 0) := by
  exact progress_monotone_successful_run envC5 demoStore 1 0 demoWorkflow
    demoVideoPath demoVideoPath [frameA] demoRaw demoOrg demoPBS
    rfl rfl rfl rfl rfl (by decide) rfl (by decide) rfl rfl rfl rfl rfl rfl

theorem storeAll_updateStatus (P : Workflow → Prop) (s : MemStorage)
    (id : Nat) (st : String) (t : Nat) (h : storeAll P s)
    (hP : ∀ w, getWorkflow s id = some w → P w →
        P { w with status := st, updatedAt := t }) :
    storeAll P (updateWorkflowStatus s id st t).2 := by
  intro j w' hj
  unfold updateWorkflowStatus at hj
  cases hget : getWorkflow s id with
  | none => rw [hget] at hj; exact h j w' hj
  | some w =>
      rw [hget] at hj
      simp only [getWorkflow, getEntry_setEntry] at hj
      by_cases hji : j = id
      · rw [if_pos hji] at hj
        obtain rfl := Option.some.inj hj
        exact hP w hget (h id w hget)
      · rw [if_neg hji] at hj
        exact h j w' hj

theorem storeAll_updateRaw (P : Workflow → Prop) (s : MemStorage)
    (id : Nat) (raw : RawWorkflowExtraction) (t : Nat) (h : storeAll P s)
    (hP : ∀ w, getWorkflow s id = some w → P w →
        P { w with rawExtraction := some raw, updatedAt := t }) :
    storeAll P (updateWorkflowRawExtraction s id raw t).2 := by
  intro j w' hj
  unfold updateWorkflowRawExtraction at hj
  cases hget : getWorkflow s id with
  | none => rw [hget] at hj; exact h j w' hj
  | some w =>
      rw [hget] at hj
      simp only [getWorkflow, getEntry_setEntry] at hj
      by_cases hji : j = id
      · rw [if_pos hji] at hj
        obtain rfl := Option.some.inj hj
        exact hP w hget (h id w hget)
      · rw [if_neg hji] at hj
        exact h j w' hj

theorem storeAll_updateOrg (P : Workflow → Prop) (s : MemStorage)
    (id : Nat) (org : OrganizedWorkflow) (t : Nat) (h : storeAll P s)
    (hP : ∀ w, getWorkflow s id = some w → P w →
        P { w with organizedWorkflow := some org, updatedAt := t }) :
    storeAll P (updateWorkflowOrganizedData s id org t).2 := by
  intro j w' hj
  unfold updateWorkflowOrganizedData at hj
  cases hget : getWorkflow s id with
  | none => rw [hget] at hj; exact h j w' hj
  | some w =>
      rw [hget] at hj
      simp only [getWorkflow, getEntry_setEntry] at hj
      by_cases hji : j = id
      · rw [if_pos hji] at hj
        obtain rfl := Option.some.inj hj
        exact hP w hget (h id w hget)
      · rw [if_neg hji] at hj
        exact h j w' hj

theorem storeAll_updateBlock (P : Workflow → Prop) (s : MemStorage)
    (id : Nat) (bs : BSValue) (t : Nat) (h : storeAll P s)
    (hP : ∀ w, getWorkflow s id = some w → P w →
        P { w with blockStructure := some bs, updatedAt := t }) :
    storeAll P (updateWorkflowBlockStructure s id bs t).2 := by
  intro j w' hj
  unfold updateWorkflowBlockStructure at hj
  cases hget : getWorkflow s id with
  | none => rw [hget] at hj; exact h j w' hj
  | some w =>
      rw [hget] at hj
      simp only [getWorkflow, getEntry_setEntry] at hj
      by_cases hji : j = id
      · rw [if_pos hji] at hj
        obtain rfl := Option.some.inj hj
        exact hP w hget (h id w hget)
      · rw [if_neg hji] at hj
        exact h j w' hj

theorem rawField_after_rawUpdate (s : MemStorage) (id : Nat)
    (raw : RawWorkflowExtraction) (t : Nat) :
    ∀ w2, getWorkflow (updateWorkflowRawExtraction s id raw t).2 id = some w2 →
      w2.rawExtraction = some raw := by
  intro w2 h
  cases hget : getWorkflow s id with
  | none =>
      unfold updateWorkflowRawExtraction at h
      rw [hget] at h
      rw [hget] at h
      cases h
  | some w =>
      rw [getWorkflow_after_raw s id raw t w hget] at h
      obtain rfl := Option.some.inj h
      rfl

theorem orgField_after_orgUpdate (s : MemStorage) (id : Nat)
    (org : OrganizedWorkflow) (t : Nat) :
    ∀ w2, getWorkflow (updateWorkflowOrganizedData s id org t).2 id = some w2 →
      w2.organizedWorkflow = some org := by
  intro w2 h
  cases hget : getWorkflow s id with
  | none =>
      unfold updateWorkflowOrganizedData at h
      rw [hget] at h
      rw [hget] at h
      cases h
  | some w =>
      rw [getWorkflow_after_org s id org t w hget] at h
      obtain rfl := Option.some.inj h
      rfl

theorem storeAll_create (P : Workflow → Prop) (s : MemStorage)
    (iw : InsertWorkflow) (now : Nat) (h : storeAll P s)
    (hP : P (createWorkflow s iw now).1) :
    storeAll P (createWorkflow s iw now).2 := by
  intro j w' hj
  unfold createWorkflow at hj hP
  simp only [getWorkflow, getEntry_setEntry] at hj
  by_cases hji : j = s.workflowIdCounter
  · rw [if_pos hji] at hj
    obtain rfl := Option.some.inj hj
    exact hP
  · rw [if_neg hji] at hj
    exact h j w' hj

theorem storeAll_putBlocks (P : Workflow → Prop) (s : MemStorage) (id : Nat)
    (body : Option BSValue) (t : Nat) (h : storeAll P s)
    (hP : ∀ w b, getWorkflow s id = some w → P w →
        P { w with blockStructure := some b, updatedAt := t }) :
    storeAll P (putWorkflowBlocks s id body t).2 := by
  unfold putWorkflowBlocks
  cases hget : getWorkflow s id with
  | none => exact h
  | some w =>
      cases body with
      | none => exact h
      | some b =>
          by_cases hb : b.blocks = none ∨ b.connections = none
          · simp only [if_pos hb]
            exact h
          · simp only [if_neg hb]
            exact storeAll_updateBlock P s id b t h
              (fun w' hw' hPw' => hP w' b hw' hPw')

theorem storeAll_processWorkflow (P : Workflow → Prop) (env : PipelineEnv)
    (s0 : MemStorage) (workflowId t : Nat) (h : storeAll P s0)
    (hst : ∀ w st t', P w → P { w with status := st, updatedAt := t' })
    (hrw : ∀ w raw t', P w →
        P { w with rawExtraction := some raw, updatedAt := t' })
    (hog : ∀ w org t', P w → w.rawExtraction ≠ none →
        P { w with organizedWorkflow := some org, updatedAt := t' })
    (hbk : ∀ w bs t', P w → w.organizedWorkflow ≠ none →
        generateBlockStructureStage env.parseBlock env.blockApi
          = Except.ok bs →
        P { w with blockStructure := some (toBSValue bs), updatedAt := t' }) :
    storeAll P (processWorkflow env s0 workflowId t).store := by
  have Hst : ∀ s id st t', storeAll P s →
      storeAll P (updateWorkflowStatus s id st t').2 :=
    fun s id st t' hs =>
      storeAll_updateStatus P s id st t' hs (fun w _ hw => hst w st t' hw)
  have Hrw : ∀ s id raw t', storeAll P s →
      storeAll P (updateWorkflowRawExtraction s id raw t').2 :=
    fun s id raw t' hs =>
      storeAll_updateRaw P s id raw t' hs (fun w _ hw => hrw w raw t' hw)
  unfold processWorkflow
  split
  · exact h
  · split
    · exact h
    · split
      · exact Hst _ _ _ _ (Hst _ _ _ _ h)
      · split
        · exact Hst _ _ _ _ (Hst _ _ _ _ h)
        · split
          · exact Hst _ _ _ _ (Hst _ _ _ _ h)
          · split
            · exact Hst _ _ _ _ (Hst _ _ _ _ h)
            · split
              · exact Hst _ _ _ _ (Hst _ _ _ _ h)
              · split
                · exact Hst _ _ _ _ (Hst _ _ _ _ h)
                · next raw0 hrawstage =>
                  split
                  · exact Hst _ _ _ _ (Hrw _ _ _ _ (Hst _ _ _ _ h))
                  · next org0 horgstage =>
                    have hs3 : storeAll P
                        (updateWorkflowOrganizedData
                          (updateWorkflowRawExtraction
                            (updateWorkflowStatus s0 workflowId
                              statusProcessing t).2
                            workflowId raw0 (t+1)).2
                          workflowId org0 (t+2)).2 :=
                      storeAll_updateOrg P _ workflowId org0 (t+2)
                        (Hrw _ _ _ _ (Hst _ _ _ _ h))
                        (fun w2 hw2 hPw2 =>
                          hog w2 org0 (t+2) hPw2
                            (by rw [rawField_after_rawUpdate _ _ _ _ w2 hw2]
                                simp))
                    split
                    · exact Hst _ _ _ _ hs3
                    · next bs0 hblockstage =>
                      exact Hst _ _ _ _
                        (storeAll_updateBlock P _ workflowId (toBSValue bs0)
                          (t+3) hs3
                          (fun w3 hw3 hPw3 =>
                            hbk w3 bs0 (t+3) hPw3
                              (by rw [orgField_after_orgUpdate _ _ _ _ w3 hw3]
                                  simp)
                              hblockstage))

theorem validateBlock_intent_closed (b : ParsedBlock) :
    blockIntentValues.contains (validateBlock b).intent = true := by
  rw [validateBlock_intent]
  by_cases h : b.intent ∈ blockIntentValues
  · simp [h]
  · simp [h]
    decide

theorem validateSource_closed (src : ParsedSource) :
    (sourceTypeValues.contains (validateSource src).type
      && updateRuleValues.contains (validateSource src).updateRules) = true := by
  rw [Bool.and_eq_true, validateSource_type, validateSource_updateRules]
  constructor
  · by_cases h : src.type ∈ sourceTypeValues
    · simp [h]
    · simp [h]
      decide
  · by_cases h : src.updateRules ∈ updateRuleValues
    · simp [h]
    · simp [h]
      decide

theorem validateConnection_closed (c : ParsedConnection) :
    updateRuleValues.contains ( validateConnection c).updateRules = true := by
  rw [validateConnection_updateRules]
  by_cases h : c.updateRules ∈ updateRuleValues
  · simp [h]
  · simp [h]
    decide

theorem validateBlockStructure_closed (p : ParsedBlockStructure) :
    enumClosedBS (toBSValue (validateBlockStructure p)) = true := by
  unfold enumClosedBS toBSValue validateBlockStructure
  simp only [Option.getD_some, List.all_map, Bool.and_eq_true, List.all_eq_true]
  refine ⟨⟨?_, ?_⟩, ?_⟩
  · intro b _
    exact validateBlock_intent_closed b
  · intro src _
    exact validateSource_closed src
  · intro c _
    exact validateConnection_closed c

theorem generateBlockStructureStage_closed
    (jsonParse : String → Option ParsedBlockStructure)
    (api : Except String String) (bs : ParsedBlockStructure)
    (h : generateBlockStructureStage jsonParse api = Except.ok bs) :
    enumClosedBS (toBSValue bs) = true := by
  cases api with
  | error e => simp [generateBlockStructureStage] at h
  | ok text =>
      cases hp : jsonParse (extractJsonBlock text) with
      | none =>
          simp [generateBlockStructureStage, parseJsonResponse, hp] at h
      | some parsed =>
          simp [generateBlockStructureStage, parseJsonResponse, hp] at h
          rw [← h]
          exact validateBlockStructure_closed parsed

/-- Counterexample to C1 as stated: after creating a workflow (no
artifacts) and PUT-replacing its block structure, the store is reachable
through the public operations yet holds a record with
`blockStructure ≠ null` and `organizedWorkflow = null`. -/
theorem artifact_ordering_counterexample :
    ReachableW anyOp c1Store
  ∧ (getWorkflow c1Store 1).elim False
      (fun w => w.blockStructure ≠ none ∧ w.organizedWorkflow = none) := by
  constructor
  · exact ReachableW.step (applyOp emptyStorage (StoreOp.create demoInsert 0))
      (StoreOp.putBlocks 1 (some demoBS) 1) trivial
      (ReachableW.step emptyStorage (StoreOp.create demoInsert 0) trivial
        ReachableW.init)
  · have hget : getWorkflow c1Store 1 = some
        { id := 1, userId := some 1, title := demoTitle, createdAt := 0,
          updatedAt := 1, status := statusPending,
          videoPath := some demoVideoPath, rawExtraction := none,
          organizedWorkflow := none, blockStructure := some demoBS } := rfl
    rw [hget]
    exact ⟨by simp, rfl⟩

/-- C1 amended: `organizedWorkflow ≠ null → rawExtraction ≠ null` holds
for every record reachable through any sequence of the public operations,
and the full chain `blockStructure ≠ null → organizedWorkflow ≠ null →
rawExtraction ≠ null` holds for every record reachable without the PUT
workflow-blocks replacement (which is the operation the counterexample
uses to break the first link). -/
theorem artifact_ordering_amended :
    (∀ s, ReachableW anyOp s → storeAll artifactChainOrgRaw s)
  ∧ (∀ s, ReachableW nonPutOp s → storeAll artifactChainFull s) := by
  constructor
  · intro s hs
    induction hs with
    | init =>
        intro id w hw
        exact absurd hw (by simp [getWorkflow, emptyStorage, getEntry])
    | step s op hop hs ih =>
        cases op with
        | create iw now =>
            exact storeAll_create _ _ _ _ ih
              (by intro horg; simp [createWorkflow] at horg)
        | runPipeline env id t =>
            refine storeAll_processWorkflow _ env s id t ih ?_ ?_ ?_ ?_
            · intro w st t' hw
              exact hw
            · intro w raw t' hw
              intro _
              simp
            · intro w org t' hw hraw
              intro _
              exact hraw
            · intro w bs t' hw horg hstage
              exact hw
        | putBlocks id body t =>
            exact storeAll_putBlocks _ _ _ _ _ ih (fun w b hw hPw => hPw)
  · intro s hs
    induction hs with
    | init =>
        intro id w hw
        exact absurd hw (by simp [getWorkflow, emptyStorage, getEntry])
    | step s op hop hs ih =>
        cases op with
        | create iw now =>
            refine storeAll_create _ _ _ _ ih ⟨?_, ?_⟩
            · intro hb
              simp [createWorkflow] at hb
            · intro horg
              simp [createWorkflow] at horg
        | runPipeline env id t =>
            refine storeAll_processWorkflow _ env s id t ih ?_ ?_ ?_ ?_
            · intro w st t' hw
              exact hw
            · intro w raw t' hw
              exact ⟨hw.1, fun _ => by simp⟩
            · intro w org t' hw hraw
              exact ⟨fun _ => by simp, fun _ => hraw⟩
            · intro w bs t' hw horg hstage
              exact ⟨fun _ => horg, hw.2⟩
        | putBlocks id body t => exact absurd hop (by simp [nonPutOp])

/-- Witness for the amended C1 at the reachable one-workflow store. -/
theorem artifact_ordering_amended_witness :
    (demoWorkflow.organizedWorkflow ≠ none → demoWorkflow.rawExtraction ≠ none)
  ∧ ((demoWorkflow.blockStructure ≠ none →
        demoWorkflow.organizedWorkflow ≠ none)
    ∧ (demoWorkflow.organizedWorkflow ≠ none →
        demoWorkflow.rawExtraction ≠ none)) := by
  constructor
  · exact artifact_ordering_amended.1 demoStore
      (ReachableW.step emptyStorage (StoreOp.create demoInsert 0) trivial
        ReachableW.init) 1 demoWorkflow rfl
  · exact artifact_ordering_amended.2 demoStore
      (ReachableW.step emptyStorage (StoreOp.create demoInsert 0) trivial
        ReachableW.init) 1 demoWorkflow rfl

/-- Counterexample to C2 as stated: the PUT replacement persists a block
structure whose enum-typed fields hold out-of-domain values as-is. -/
theorem enum_closure_counterexample :
    ReachableW anyOp c2Store
  ∧ (getWorkflow c2Store 1).elim False
      (fun w => w.blockStructure = some badEnumBS)
  ∧ enumClosedBS badEnumBS = false := by
  refine ⟨?_, ?_, by decide⟩
  · exact ReachableW.step (applyOp emptyStorage (StoreOp.create demoInsert 0))
      (StoreOp.putBlocks 1 (some badEnumBS) 1) trivial
      (ReachableW.step emptyStorage (StoreOp.create demoInsert 0) trivial
        ReachableW.init)
  · have hget : getWorkflow c2Store 1 = some
        { id := 1, userId := some 1, title := demoTitle, createdAt := 0,
          updatedAt := 1, status := statusPending,
          videoPath := some demoVideoPath, rawExtraction := none,
          organizedWorkflow := none, blockStructure := some badEnumBS } := rfl
    rw [hget]
    rfl

/-- C2 amended: every block structure persisted by a sequence of public
operations that does not include the PUT replacement (i.e. every structure
written by the Block Graph Generator stage) has all enum-typed fields in
their declared closed sets; the PUT route, by contrast, stores its payload
verbatim (see the counterexample). -/
theorem enum_closure_amended :
    ∀ s, ReachableW nonPutOp s → storeAll enumClosedRecord s := by
  intro s hs
  induction hs with
  | init =>
      intro id w hw
      exact absurd hw (by simp [getWorkflow, emptyStorage, getEntry])
  | step s op hop hs ih =>
      cases op with
      | create iw now =>
          refine storeAll_create _ _ _ _ ih ?_
          intro bs hbs
          simp [createWorkflow] at hbs
      | runPipeline env id t =>
          refine storeAll_processWorkflow _ env s id t ih ?_ ?_ ?_ ?_
          · intro w st t' hw
            exact hw
          · intro w raw t' hw
            exact hw
          · intro w org t' hw hraw
            exact hw
          · intro w bs t' hw horg hstage
            intro bs' hbs'
            obtain rfl := Option.some.inj hbs'
            exact generateBlockStructureStage_closed env.parseBlock
              env.blockApi bs hstage
      | putBlocks id body t => exact absurd hop (by simp [nonPutOp])

/-- Witness for the amended C2: the block structure persisted by the
completed demo run is enum-closed. -/
theorem enum_closure_amended_witness :
    enumClosedBS (toBSValue demoPBS) = true := by
  have hreach : ReachableW nonPutOp c2RunStore :=
    ReachableW.step (applyOp emptyStorage (StoreOp.create demoInsert 0))
      (StoreOp.runPipeline envC5 1 0) trivial
      (ReachableW.step emptyStorage (StoreOp.create demoInsert 0) trivial
        ReachableW.init)
  have hget : getWorkflow c2RunStore 1 = some
      { id := 1, userId := some 1, title := demoTitle, createdAt := 0,
        updatedAt := 4, status := statusCompleted,
        videoPath := some demoVideoPath, rawExtraction := some demoRaw,
        organizedWorkflow := some demoOrg,
        blockStructure := some (toBSValue demoPBS) } := rfl
  exact enum_closure_amended c2RunStore hreach 1 _ hget
    (toBSValue demoPBS) rfl

end WorkflowPOC

